import Mathlib

/-!
Verification development for the capsule8 sensor core
(`pkg/sensor/container.go`, `pkg/sensor/syscall.go`, `pkg/sensor/file.go`).

The Go source is shallowly embedded: pure Go functions become Lean
functions, the stateful container cache becomes explicit state passing,
and Go's `map[string]interface{}` sample data becomes typed lookup
functions returning `Option`.  Definitions keep the source's names where
Lean allows it.  Parts of the repository that are not in the sensor
package (the `expression` package, the kernel filter evaluator, the
`perf` event monitor) are modelled from the specification where a claim
depends on them; each such definition is marked `Modelled from the
spec:` in its doc comment.
-/

namespace Capsule8

/-! ## Container lifecycle data model (container.go) -/

/-- `ContainerState` from container.go: the state of a container.  The Go
declaration order gives the ordinals used for threshold comparisons. -/
inductive ContainerState where
  | unknown
  | created
  | paused
  | running
  | restarting
  | exited
  | removing
deriving DecidableEq, Repr

/-- The underlying `uint` ordinal of a `ContainerState`, exactly the Go
`iota` numbering used by the `<` / `>=` comparisons in `Update`. -/
def ContainerState.ord : ContainerState → Nat
  | .unknown => 0
  | .created => 1
  | .paused => 2
  | .running => 3
  | .restarting => 4
  | .exited => 5
  | .removing => 6

/-- `ContainerRuntime` from container.go. -/
inductive ContainerRuntime where
  | unknown
  | docker
deriving DecidableEq, Repr

/-- `ContainerInfo` from container.go (the `cache` back-pointer, which
only identifies the owning cache, is dropped). -/
structure ContainerInfo where
  id : String
  name : String
  imageID : String
  imageName : String
  pid : Int
  exitCode : Int
  runtime : ContainerRuntime
  state : ContainerState
  jsonConfig : String
  ociConfig : String
deriving DecidableEq, Repr

/-- The `data map[string]interface{}` argument of `ContainerInfo.Update`:
one optional entry per settable (exported) field of `ContainerInfo`. -/
structure UpdateData where
  id : Option String := none
  name : Option String := none
  imageID : Option String := none
  imageName : Option String := none
  pid : Option Int := none
  exitCode : Option Int := none
  runtime : Option ContainerRuntime := none
  state : Option ContainerState := none
  jsonConfig : Option String := none
  ociConfig : Option String := none

/-- The five derived container telemetry event kinds that the cache can
enqueue (`CONTAINER_CREATED` … `CONTAINER_UPDATED`). -/
inductive CEvent where
  | created
  | running
  | exited
  | destroyed
  | updated
deriving DecidableEq, Repr

/-- `newContainerInfo` from container.go: a fresh cache entry, created
lazily by `lookupContainer`; runtime and state are the Go zero values. -/
def newContainerInfo (containerID : String) : ContainerInfo :=
  { id := containerID
    name := ""
    imageID := ""
    imageName := ""
    pid := 0
    exitCode := 0
    runtime := ContainerRuntime.unknown
    state := ContainerState.unknown
    jsonConfig := ""
    ociConfig := "" }

/-- One iteration of the reflection loop in `ContainerInfo.Update` for a
field other than `State`: if the field is present in the update data and
differs from the cached value, assign it and mark data changed. -/
def applyPlain {α : Type} [DecidableEq α] (get : ContainerInfo → α)
    (set : ContainerInfo → α → ContainerInfo) (dv : Option α)
    (st : ContainerInfo × Bool) : ContainerInfo × Bool :=
  match dv with
  | none => st
  | some v => if v = get st.1 then st else (set st.1 v, true)

/-- The `State` iteration of the reflection loop in
`ContainerInfo.Update`: a differing state is applied only when the
caller's runtime equals the cached authority; an ignored state change
never marks data changed. -/
def applyState (runtime : ContainerRuntime) (dv : Option ContainerState)
    (st : ContainerInfo × Bool) : ContainerInfo × Bool :=
  match dv with
  | none => st
  | some v =>
    if v = st.1.state then st
    else if st.1.runtime = runtime then ({ st.1 with state := v }, st.2)
    else st

/-- Setter for the `ID` field, as the reflection loop's `Set` performs it. -/
def updId : ContainerInfo → String → ContainerInfo := fun i v => { i with id := v }

/-- Setter for the `Name` field. -/
def updName : ContainerInfo → String → ContainerInfo := fun i v => { i with name := v }

/-- Setter for the `ImageID` field. -/
def updImageID : ContainerInfo → String → ContainerInfo := fun i v => { i with imageID := v }

/-- Setter for the `ImageName` field. -/
def updImageName : ContainerInfo → String → ContainerInfo := fun i v => { i with imageName := v }

/-- Setter for the `Pid` field. -/
def updPid : ContainerInfo → Int → ContainerInfo := fun i v => { i with pid := v }

/-- Setter for the `ExitCode` field. -/
def updExitCode : ContainerInfo → Int → ContainerInfo := fun i v => { i with exitCode := v }

/-- Setter for the `Runtime` field. -/
def updRuntime : ContainerInfo → ContainerRuntime → ContainerInfo :=
  fun i v => { i with runtime := v }

/-- Setter for the `JSONConfig` field. -/
def updJsonConfig : ContainerInfo → String → ContainerInfo :=
  fun i v => { i with jsonConfig := v }

/-- Setter for the `OCIConfig` field. -/
def updOciConfig : ContainerInfo → String → ContainerInfo :=
  fun i v => { i with ociConfig := v }

/-- The field-assignment loop of `ContainerInfo.Update`, in the order Go
reflection visits the fields (declaration order reversed, index
`NumField()-1` down to `0`, the unexported `cache` field skipped):
OCIConfig, JSONConfig, State, Runtime, ExitCode, Pid, ImageName,
ImageID, Name, ID.  Also performs the initial runtime-authority
adoption.  Note that the `State` iteration runs before the `Runtime`
iteration, so the authority check compares against the runtime adopted
at entry, not a runtime assigned from the update data. -/
def updateFields (runtime : ContainerRuntime) (data : UpdateData)
    (info : ContainerInfo) : ContainerInfo × Bool :=
  let s0 : ContainerInfo × Bool :=
    (if info.runtime = ContainerRuntime.unknown
      then { info with runtime := runtime } else info, false)
  let s1 := applyPlain ContainerInfo.ociConfig updOciConfig data.ociConfig s0
  let s2 := applyPlain ContainerInfo.jsonConfig updJsonConfig data.jsonConfig s1
  let s3 := applyState runtime data.state s2
  let s4 := applyPlain ContainerInfo.runtime updRuntime data.runtime s3
  let s5 := applyPlain ContainerInfo.exitCode updExitCode data.exitCode s4
  let s6 := applyPlain ContainerInfo.pid updPid data.pid s5
  let s7 := applyPlain ContainerInfo.imageName updImageName data.imageName s6
  let s8 := applyPlain ContainerInfo.imageID updImageID data.imageID s7
  let s9 := applyPlain ContainerInfo.name updName data.name s8
  applyPlain ContainerInfo.id updId data.id s9

/-- The event-emission tail of `ContainerInfo.Update`: compare the new
state against the state captured before the loop and enqueue CREATED /
RUNNING / EXITED (in that order), or UPDATED when only other data
changed. -/
def emitEvents (oldState newState : ContainerState) (dataChanged : Bool) :
    List CEvent :=
  if newState ≠ oldState then
    (if oldState.ord < ContainerState.created.ord then [CEvent.created] else []) ++
    (if oldState.ord < ContainerState.running.ord ∧
        ContainerState.running.ord ≤ newState.ord then [CEvent.running] else []) ++
    (if oldState.ord < ContainerState.restarting.ord ∧
        ContainerState.restarting.ord ≤ newState.ord then [CEvent.exited] else [])
  else if dataChanged then [CEvent.updated] else []

/-- `ContainerInfo.Update` from container.go: apply the update data and
return the new cache entry together with the telemetry events enqueued
by this one call, in emission order. -/
def ContainerInfo.update (runtime : ContainerRuntime) (data : UpdateData)
    (info : ContainerInfo) : ContainerInfo × List CEvent :=
  let st := updateFields runtime data info
  (st.1, emitEvents info.state st.1.state st.2)

/-- Whether one field iteration of the `Update` reflection loop marks
"data changed": the field is present in the update data and differs from
the value it is compared against. -/
def changedOf {α : Type} [DecidableEq α] (dv : Option α) (cur : α) : Bool :=
  match dv with
  | none => false
  | some v => decide (v ≠ cur)

/-! ## Container cache deletion and DESTROYED event data (container.go) -/

/-- Go's `uint32(x)` conversion applied to an `int`, as in
`unix.WaitStatus(info.ExitCode)`. -/
def uint32Of (i : Int) : Nat := (i % (2 ^ 32 : Int)).toNat

/-- Go's `int32(x)` truncation of an `int`. -/
def int32Of (i : Int) : Int := (i + 2 ^ 31) % 2 ^ 32 - 2 ^ 31

/-- `unix.WaitStatus.Exited` for Linux: the low seven bits are zero. -/
def wsExited (ws : Nat) : Bool := ws % 128 = 0

/-- `unix.WaitStatus.Signaled` for Linux: the low seven bits are neither
the stop marker `0x7f` nor zero. -/
def wsSignaled (ws : Nat) : Bool := ws % 128 ≠ 127 ∧ ws % 128 ≠ 0

/-- `unix.WaitStatus.CoreDump` for Linux: signaled and the `0x80` core
flag set. -/
def wsCoreDump (ws : Nat) : Bool := wsSignaled ws && Nat.land ws 128 ≠ 0

/-- `unix.WaitStatus.ExitStatus` for Linux (in the exited case): bits
8-15. -/
def wsExitStatus (ws : Nat) : Nat := ws / 256 % 256

/-- `unix.WaitStatus.Signal` for Linux (in the signaled case): the low
seven bits. -/
def wsSignal (ws : Nat) : Nat := ws % 128

/-- The typed-field map built by `containerCache.enqueueContainerEvent`:
the entry's descriptive fields plus the exit status/signal/core-dump
decoded from the raw wait-status encoding of `ExitCode`.  `exit_status`
is filled only for exited statuses and `exit_signal` only for signaled
statuses; both default to zero. -/
structure ContainerEventData where
  containerID : String
  name : String
  imageID : String
  imageName : String
  hostPid : Int
  exitCode : Int
  exitStatus : Nat
  exitSignal : Nat
  exitCoreDumped : Bool
deriving DecidableEq, Repr

/-- The data map `enqueueContainerEvent` enqueues for a given entry. -/
def containerEventData (info : ContainerInfo) : ContainerEventData :=
  let ws := uint32Of info.exitCode
  { containerID := info.id
    name := info.name
    imageID := info.imageID
    imageName := info.imageName
    hostPid := int32Of info.pid
    exitCode := int32Of info.exitCode
    exitStatus := if wsExited ws then wsExitStatus ws else 0
    exitSignal := if wsSignaled ws then wsSignal ws else 0
    exitCoreDumped := wsCoreDump ws }

/-- The container cache's `map[string]*ContainerInfo`, embedded as an
association list whose keys are unique (a Go map invariant). -/
def mapLookup : List (String × ContainerInfo) → String → Option ContainerInfo
  | [], _ => none
  | (k, v) :: rest, key => if k = key then some v else mapLookup rest key

/-- Go's `delete(map, key)`: remove the entry for `key`. -/
def mapErase : List (String × ContainerInfo) → String → List (String × ContainerInfo)
  | [], _ => []
  | (k, v) :: rest, key => if k = key then rest else (k, v) :: mapErase rest key

/-- `containerCache.deleteContainer` from container.go: under the lock,
look up the entry; remove it only when the caller's runtime matches the
entry's runtime authority; after unlocking, enqueue CONTAINER_DESTROYED
with the entry's last known data exactly when the removal happened.
Returns the new cache and the enqueued events. -/
def deleteContainer (cache : List (String × ContainerInfo)) (containerID : String)
    (runtime : ContainerRuntime) :
    List (String × ContainerInfo) × List (CEvent × ContainerEventData) :=
  match mapLookup cache containerID with
  | some info =>
    if runtime = info.runtime then
      (mapErase cache containerID, [(CEvent.destroyed, containerEventData info)])
    else (cache, [])
  | none => (cache, [])

/-! ## Expression AST, kernel filter strings and their semantics

The `api.Expression` protobuf and the `expression` package are repo code
outside the sensor package; where a claim depends on them they are
modelled from the spec (typed expression tree with Identifier/Literal
leaves and AND/OR/EQ/NE/LT/LE/GT/GE/LIKE/BITWISE-AND nodes; the kernel
filter grammar of parenthesized `field OP literal` combinations). -/

/-- Modelled from the spec: a typed literal constant (signed/unsigned
integer, string, boolean).  Integer widths are not distinguished, as no
claim depends on them. -/
inductive Value where
  | vInt (i : Int)
  | vUInt (n : Nat)
  | vStr (s : String)
  | vBool (b : Bool)
deriving DecidableEq, Repr

/-- Modelled from the spec: the binary node kinds of `api.Expression`. -/
inductive BinOp where
  | logicalAnd
  | logicalOr
  | eq
  | ne
  | lt
  | le
  | gt
  | ge
  | like
  | bitwiseAnd
deriving DecidableEq, Repr

/-- Modelled from the spec: the `api.Expression` tree.  `null` stands for
a nil `*api.Expression` pointer (an absent expression). -/
inductive ApiExpression where
  | identifier (name : String)
  | literal (v : Value)
  | binary (op : BinOp) (lhs rhs : ApiExpression)
  | null
deriving DecidableEq, Repr

/-- Glob-style string match (`*` any run, `?` any one character), used by
the LIKE operator and the kernel's `~` operator; pattern first. -/
def globMatch : List Char → List Char → Bool
  | [], [] => true
  | [], _ :: _ => false
  | '*' :: ps, [] => globMatch ps []
  | '*' :: ps, c :: ss => globMatch ps (c :: ss) || globMatch ('*' :: ps) ss
  | '?' :: _, [] => false
  | '?' :: ps, _ :: ss => globMatch ps ss
  | _ :: _, [] => false
  | p :: ps, c :: ss => p = c && globMatch ps ss
termination_by p s => (s.length, p.length)

/-- Modelled from the spec: the comparison semantics shared by the
expression evaluator and the kernel filter evaluator.  Comparisons are
defined only between like-typed operands; ordering only on integers;
LIKE on strings (right operand the pattern); the bitwise-AND test is
true when the masked value is nonzero; AND/OR are not comparisons. -/
def compareValues : BinOp → Value → Value → Option Bool
  | .eq, .vInt a, .vInt b => some (a = b)
  | .eq, .vUInt a, .vUInt b => some (a = b)
  | .eq, .vStr a, .vStr b => some (a = b)
  | .eq, .vBool a, .vBool b => some (a = b)
  | .ne, .vInt a, .vInt b => some (a ≠ b)
  | .ne, .vUInt a, .vUInt b => some (a ≠ b)
  | .ne, .vStr a, .vStr b => some (a ≠ b)
  | .ne, .vBool a, .vBool b => some (a ≠ b)
  | .lt, .vInt a, .vInt b => some (a < b)
  | .lt, .vUInt a, .vUInt b => some (a < b)
  | .le, .vInt a, .vInt b => some (a ≤ b)
  | .le, .vUInt a, .vUInt b => some (a ≤ b)
  | .gt, .vInt a, .vInt b => some (b < a)
  | .gt, .vUInt a, .vUInt b => some (b < a)
  | .ge, .vInt a, .vInt b => some (b ≤ a)
  | .ge, .vUInt a, .vUInt b => some (b ≤ a)
  | .like, .vStr a, .vStr p => some (globMatch p.toList a.toList)
  | .bitwiseAnd, .vInt a, .vInt b => some (Int.land a b ≠ 0)
  | .bitwiseAnd, .vUInt a, .vUInt b => some (Nat.land a b ≠ 0)
  | _, _, _ => none

/-- A decoded kernel sample's typed field assignment. -/
def Sample : Type := String → Option Value

/-- Modelled from the spec: evaluating a comparison operand (identifier
or literal leaf) against a sample; other shapes are not values. -/
def evalOperand (s : Sample) : ApiExpression → Option Value
  | .identifier n => s n
  | .literal v => some v
  | _ => none

/-- Modelled from the spec: whether a filter expression accepts a sample
(`Fi accepts X`).  A missing field or an ill-typed comparison rejects;
AND/OR combine sub-results. -/
def ApiExpression.test (s : Sample) : ApiExpression → Bool
  | .binary .logicalAnd l r => l.test s && r.test s
  | .binary .logicalOr l r => l.test s || r.test s
  | .binary op l r =>
    match evalOperand s l, evalOperand s r with
    | some a, some b => (compareValues op a b).getD false
    | _, _ => false
  | _ => false

/-- Modelled from the spec: the AST of a compiled kernel filter string —
parenthesized boolean combinations of `field OP literal` leaves. -/
inductive KFilter where
  | leaf (field : String) (op : BinOp) (v : Value)
  | kand (a b : KFilter)
  | kor (a b : KFilter)
deriving DecidableEq, Repr

/-- Modelled from the spec: the kernel filter evaluator's verdict on a
sample; a leaf whose field is absent from the sample rejects. -/
def KFilter.accepts (s : Sample) : KFilter → Bool
  | .leaf f op v =>
    match s f with
    | some a => (compareValues op a v).getD false
    | none => false
  | .kand a b => a.accepts s && b.accepts s
  | .kor a b => a.accepts s || b.accepts s

/-- Modelled from the spec: `expression.NewExpression` followed by
`ValidateKernelFilter` — compile an expression into the kernel grammar,
requiring every comparison leaf to be identifier-on-the-left against a
literal; `none` when the tree is not kernel-representable (including a
nil expression). -/
def compileKernel : ApiExpression → Option KFilter
  | .binary .logicalAnd l r =>
    match compileKernel l, compileKernel r with
    | some a, some b => some (.kand a b)
    | _, _ => none
  | .binary .logicalOr l r =>
    match compileKernel l, compileKernel r with
    | some a, some b => some (.kor a b)
    | _, _ => none
  | .binary op (.identifier f) (.literal v) => some (.leaf f op v)
  | _ => none

/-- Modelled from the spec: printing a literal in the kernel grammar. -/
def valueStr : Value → String
  | .vInt i => toString i
  | .vUInt n => toString n
  | .vStr s => "\"" ++ s ++ "\""
  | .vBool b => if b then "TRUE" else "FALSE"

/-- Modelled from the spec: the kernel grammar operator tokens. -/
def opStr : BinOp → String
  | .eq => "=="
  | .ne => "!="
  | .like => "~"
  | .lt => "<"
  | .le => "<="
  | .bitwiseAnd => "&"
  | .gt => ">"
  | .ge => ">="
  | .logicalAnd => "&&"
  | .logicalOr => "||"

/-- Modelled from the spec: `expression.KernelFilterString` — render a
compiled filter in the kernel grammar, each side parenthesized. -/
def printKFilter : KFilter → String
  | .leaf f op v => f ++ " " ++ opStr op ++ " " ++ valueStr v
  | .kand a b => "(" ++ printKFilter a ++ ") && (" ++ printKFilter b ++ ")"
  | .kor a b => "(" ++ printKFilter a ++ ") || (" ++ printKFilter b ++ ")"

/-- Modelled from the spec: `expression.LogicalAnd` — ANDing with an
absent (nil) operand yields the other operand unchanged. -/
def exprLogicalAnd (lhs rhs : ApiExpression) : ApiExpression :=
  match lhs, rhs with
  | .null, r => r
  | l, .null => l
  | l, r => .binary .logicalAnd l r

/-- Modelled from the spec: `expression.Equal`. -/
def exprEqual (lhs rhs : ApiExpression) : ApiExpression := .binary .eq lhs rhs

/-- Modelled from the spec: `expression.Like`. -/
def exprLike (lhs rhs : ApiExpression) : ApiExpression := .binary .like lhs rhs

/-- Modelled from the spec: `expression.BitwiseAnd`. -/
def exprBitwiseAnd (lhs rhs : ApiExpression) : ApiExpression :=
  .binary .bitwiseAnd lhs rhs

/-! ## Syscall event registration (syscall.go) -/

/-- `containsIDFilter` from syscall.go: whether an expression constrains
the `id` field — an EQ node whose left operand is the identifier `id`;
AND needs one side, OR needs both sides; everything else (including a
nil expression) does not. -/
def containsIDFilter : ApiExpression → Bool
  | .binary .logicalAnd l r => containsIDFilter l || containsIDFilter r
  | .binary .logicalOr l r => containsIDFilter l && containsIDFilter r
  | .binary .eq l _ =>
    match l with
    | .identifier n => n = "id"
    | _ => false
  | _ => false

/-- `api.SyscallEventType`. -/
inductive SyscallEventType where
  | unknown
  | enter
  | exit
deriving DecidableEq, Repr

/-- `api.SyscallEventFilter`: the deprecated wrapped fields plus the
filter expression (`.null` = nil). -/
structure SyscallEventFilter where
  eventType : SyscallEventType
  id : Option Int := none
  arg0 : Option Nat := none
  arg1 : Option Nat := none
  arg2 : Option Nat := none
  arg3 : Option Nat := none
  arg4 : Option Nat := none
  arg5 : Option Nat := none
  ret : Option Int := none
  filterExpression : ApiExpression := ApiExpression.null
deriving DecidableEq, Repr

/-- `rewriteSyscallEventFilter` from syscall.go: fold each deprecated
field into the filter expression as an ANDed equality and clear it; the
arg fields only for ENTER filters, `ret` only for EXIT filters. -/
def rewriteSyscallEventFilter (sef0 : SyscallEventFilter) : SyscallEventFilter :=
  let sef1 :=
    match sef0.id with
    | some v =>
      { sef0 with
        filterExpression := exprLogicalAnd
          (exprEqual (ApiExpression.identifier "id")
            (ApiExpression.literal (Value.vInt v))) sef0.filterExpression,
        id := none }
    | none => sef0
  if sef1.eventType = SyscallEventType.enter then
    let s2 :=
      match sef1.arg0 with
      | some v =>
        { sef1 with
          filterExpression := exprLogicalAnd
            (exprEqual (ApiExpression.identifier "arg0")
              (ApiExpression.literal (Value.vUInt v))) sef1.filterExpression,
          arg0 := none }
      | none => sef1
    let s3 :=
      match s2.arg1 with
      | some v =>
        { s2 with
          filterExpression := exprLogicalAnd
            (exprEqual (ApiExpression.identifier "arg1")
              (ApiExpression.literal (Value.vUInt v))) s2.filterExpression,
          arg1 := none }
      | none => s2
    let s4 :=
      match s3.arg2 with
      | some v =>
        { s3 with
          filterExpression := exprLogicalAnd
            (exprEqual (ApiExpression.identifier "arg2")
              (ApiExpression.literal (Value.vUInt v))) s3.filterExpression,
          arg2 := none }
      | none => s3
    let s5 :=
      match s4.arg3 with
      | some v =>
        { s4 with
          filterExpression := exprLogicalAnd
            (exprEqual (ApiExpression.identifier "arg3")
              (ApiExpression.literal (Value.vUInt v))) s4.filterExpression,
          arg3 := none }
      | none => s4
    let s6 :=
      match s5.arg4 with
      | some v =>
        { s5 with
          filterExpression := exprLogicalAnd
            (exprEqual (ApiExpression.identifier "arg4")
              (ApiExpression.literal (Value.vUInt v))) s5.filterExpression,
          arg4 := none }
      | none => s5
    match s6.arg5 with
    | some v =>
      { s6 with
        filterExpression := exprLogicalAnd
          (exprEqual (ApiExpression.identifier "arg5")
            (ApiExpression.literal (Value.vUInt v))) s6.filterExpression,
        arg5 := none }
    | none => s6
  else if sef1.eventType = SyscallEventType.exit then
    match sef1.ret with
    | some v =>
      { sef1 with
        filterExpression := exprLogicalAnd
          (exprEqual (ApiExpression.identifier "ret")
            (ApiExpression.literal (Value.vInt v))) sef1.filterExpression,
        ret := none }
    | none => sef1
  else sef1

/-- Inserting a compiled filter into a registration set.  The Go code
keys the set by the compiled kernel filter string; structural equality
of compiled filters stands in for equality of their printed strings. -/
def dedupInsert (l : List KFilter) (k : KFilter) : List KFilter :=
  if k ∈ l then l else l ++ [k]

/-- One iteration of the filter-collection loop of
`registerSyscallEvents` (syscall.go): rewrite the filter, skip it
entirely unless its expression constrains `id` (`containsIDFilter`),
skip it if it does not compile as a kernel filter, and otherwise add the
compiled filter to the ENTER or EXIT registration set according to the
filter's type. -/
def collectSyscallStep (acc : List KFilter × List KFilter)
    (sef0 : SyscallEventFilter) : List KFilter × List KFilter :=
  let sef := rewriteSyscallEventFilter sef0
  if containsIDFilter sef.filterExpression then
    match compileKernel sef.filterExpression with
    | none => acc
    | some k =>
      match sef.eventType with
      | SyscallEventType.enter => (dedupInsert acc.1 k, acc.2)
      | SyscallEventType.exit => (acc.1, dedupInsert acc.2 k)
      | SyscallEventType.unknown => acc
  else acc

/-- The filter-collection loop of `registerSyscallEvents`, producing the
ENTER and EXIT registration sets. -/
def collectSyscallFilters (events : List SyscallEventFilter) :
    List KFilter × List KFilter :=
  events.foldl collectSyscallStep ([], [])

/-! ## File event registration (file.go) -/

/-- `api.FileEventType`; `fopen` is `FILE_EVENT_TYPE_OPEN`. -/
inductive FileEventType where
  | unknown
  | fopen
deriving DecidableEq, Repr

/-- `api.FileEventFilter`: the deprecated wrapped fields plus the filter
expression (`.null` = nil). -/
structure FileEventFilter where
  eventType : FileEventType
  filename : Option String := none
  filenamePattern : Option String := none
  openFlagsMask : Option Int := none
  createModeMask : Option Int := none
  filterExpression : ApiExpression := ApiExpression.null
deriving DecidableEq, Repr

/-- `rewriteFileEventFilter` from file.go: fold `Filename` (equality) or
else `FilenamePattern` (LIKE) into the expression, then `OpenFlagsMask`
and `CreateModeMask` (bitwise-AND tests); clear each deprecated field.
When `Filename` is set, `FilenamePattern` is cleared without ever being
folded in. -/
def rewriteFileEventFilter (fef0 : FileEventFilter) : FileEventFilter :=
  let fef1 :=
    match fef0.filename with
    | some v =>
      { fef0 with
        filterExpression := exprLogicalAnd
          (exprEqual (ApiExpression.identifier "filename")
            (ApiExpression.literal (Value.vStr v))) fef0.filterExpression,
        filename := none,
        filenamePattern := none }
    | none =>
      match fef0.filenamePattern with
      | some p =>
        { fef0 with
          filterExpression := exprLogicalAnd
            (exprLike (ApiExpression.identifier "filename")
              (ApiExpression.literal (Value.vStr p))) fef0.filterExpression,
          filenamePattern := none }
      | none => fef0
  let fef2 :=
    match fef1.openFlagsMask with
    | some m =>
      { fef1 with
        filterExpression := exprLogicalAnd
          (exprBitwiseAnd (ApiExpression.identifier "flags")
            (ApiExpression.literal (Value.vInt m))) fef1.filterExpression,
        openFlagsMask := none }
    | none => fef1
  match fef2.createModeMask with
  | some m =>
    { fef2 with
      filterExpression := exprLogicalAnd
        (exprBitwiseAnd (ApiExpression.identifier "mode")
          (ApiExpression.literal (Value.vInt m))) fef2.filterExpression,
      createModeMask := none }
  | none => fef2

/-- One iteration of the filter-collection loop of `registerFileEvents`
(file.go): skip non-OPEN filters; rewrite; a nil expression makes the
whole group unconditional (wildcard); otherwise compile, skipping
failures, and add the compiled filter to the registration set. -/
def collectFileStep (acc : Bool × List KFilter) (fef0 : FileEventFilter) :
    Bool × List KFilter :=
  if fef0.eventType ≠ FileEventType.fopen then acc
  else
    let fef := rewriteFileEventFilter fef0
    if fef.filterExpression = ApiExpression.null then (true, acc.2)
    else
      match compileKernel fef.filterExpression with
      | some k => (acc.1, dedupInsert acc.2 k)
      | none => acc

/-- The filter-collection loop of `registerFileEvents`, producing the
wildcard flag and the compiled registration set. -/
def collectFileFilters (events : List FileEventFilter) : Bool × List KFilter :=
  events.foldl collectFileStep (false, [])

/-- The kernel filter registered for a merged probe: either the empty
filter string (unconditional) or the disjunction of a set of compiled
filters. -/
inductive KernelFilterSpec where
  | unconditional
  | disjunction (ks : List KFilter)
deriving DecidableEq, Repr

/-- Acceptance by the registered group filter: the empty filter accepts
everything; a disjunction accepts when some member accepts. -/
def KernelFilterSpec.accepts (s : Sample) : KernelFilterSpec → Bool
  | .unconditional => true
  | .disjunction ks => ks.any (fun k => k.accepts s)

/-- The filter string handed to the event monitor: each member compiled
filter parenthesized and joined with " || " (file.go / syscall.go). -/
def KernelFilterSpec.filterString : KernelFilterSpec → String
  | .unconditional => ""
  | .disjunction ks =>
    String.intercalate " || " (ks.map (fun k => "(" ++ printKFilter k ++ ")"))

/-- The registration outcome of `registerFileEvents` (file.go): `none`
when no probe is registered at all; otherwise the kernel filter used for
the single do_sys_open kprobe.  A wildcard requester makes the filter
unconditional; with no wildcard, an empty compiled set registers
nothing. -/
def registerFileEvents (events : List FileEventFilter) : Option KernelFilterSpec :=
  let wc := (collectFileFilters events).1
  let ks := (collectFileFilters events).2
  if wc = false then
    if ks = [] then none
    else some (KernelFilterSpec.disjunction ks)
  else if events = [] then none
  else some KernelFilterSpec.unconditional

/-- The enter-kprobe registration outcome of `registerSyscallEvents`
(syscall.go): with a nonempty collected enter set the kprobe is
registered with the joined disjunction filter; with an empty set no
probe is registered.  There is no wildcard path: a requester without an
id-constraining expression never reaches the filter sets. -/
def registerSyscallEnter (events : List SyscallEventFilter) : Option KernelFilterSpec :=
  let ks := (collectSyscallFilters events).1
  if ks = [] then none else some (KernelFilterSpec.disjunction ks)

/-- The exit-tracepoint registration outcome of `registerSyscallEvents`
(syscall.go), built from the collected exit set the same way. -/
def registerSyscallExit (events : List SyscallEventFilter) : Option KernelFilterSpec :=
  let ks := (collectSyscallFilters events).2
  if ks = [] then none else some (KernelFilterSpec.disjunction ks)

/-! ## Dummy raw_syscalls/sys_enter tracepoint management (syscall.go) -/

/-- Event-monitor actions taken by the dummy-tracepoint management. -/
inductive MonAction where
  | regTracepoint (group : Int)
  | unregEvent
deriving DecidableEq, Repr

/-- The sensor state relevant to the shared dummy tracepoint:
`Sensor.dummySyscallEventCount` and whether the process-wide dummy
registration currently exists. -/
structure DummyState where
  count : Int
  active : Bool
deriving DecidableEq, Repr

/-- The dummy-registration block of `registerSyscallEvents` (run when at
least one enter filter was collected), with the monitor's
`RegisterTracepoint` assumed to succeed.  Kernels with major version
below 3 register the dummy tracepoint in the caller's event group on
every call (it can never be removed there); newer kernels increment the
process-wide counter and register in event group 0 only on the counter
transition 0 → 1. -/
def dummyRegisterStep (major : Nat) (groupID : Int) (st : DummyState) :
    DummyState × List MonAction :=
  if major < 3 then (st, [MonAction.regTracepoint groupID])
  else if st.count + 1 = 1 then
    ({ count := st.count + 1, active := true }, [MonAction.regTracepoint 0])
  else ({ st with count := st.count + 1 }, [])

/-- The enter subscription's unregister callback (syscall.go): decrement
the counter and unregister the dummy event exactly when it reaches
zero. -/
def dummyUnregisterStep (st : DummyState) : DummyState × List MonAction :=
  if st.count - 1 = 0 then
    ({ count := st.count - 1, active := false }, [MonAction.unregEvent])
  else ({ st with count := st.count - 1 }, [])

/-- Whether the unregister callback is installed on the enter
subscription after a successful kprobe registration: only for kernel
major version at least 3. -/
def unregisterCallbackInstalled (major : Nat) : Bool := decide (3 ≤ major)

/-- A sequence of dummy registrations (one per probe group), as a
process performs on an old (major < 3) kernel; collects all monitor
actions. -/
def dummyLegacyTrace (major : Nat) (groups : List Int) (st : DummyState) :
    DummyState × List MonAction :=
  match groups with
  | [] => (st, [])
  | g :: gs =>
    let r := dummyRegisterStep major g st
    let rest := dummyLegacyTrace major gs r.1
    (rest.1, r.2 ++ rest.2)

/-! ## Container identifier filter (container.go) -/

/-- The fields of an `api.ContainerEvent` consulted by the filter's slow
path. -/
structure ContainerEventPayload where
  name : String
  imageID : String
  imageName : String
deriving DecidableEq, Repr

/-- The payload discriminator of a telemetry event as the filter sees
it: a container-lifecycle payload or anything else. -/
inductive TelemetryPayload where
  | container (cev : ContainerEventPayload)
  | other
deriving DecidableEq, Repr

/-- A telemetry event as consumed by `containerFilter.FilterFunc`. -/
structure TEvent where
  containerId : String
  payload : TelemetryPayload
deriving DecidableEq, Repr

/-- `containerFilter` from container.go.  The compiled image-name globs
(`gobwas/glob`, an external library) are modelled as opaque match
predicates. -/
structure ContainerFilterState where
  containerIds : List String
  containerNames : List String
  imageIds : List String
  imageGlobs : List (String → Bool)

/-- `containerFilter.addContainerID`: add a nonempty container id to the
fast-path allow-set. -/
def addContainerID (c : ContainerFilterState) (cid : String) : ContainerFilterState :=
  if 0 < cid.length then
    if c.containerIds.contains cid then c
    else { c with containerIds := cid :: c.containerIds }
  else c

/-- `containerFilter.FilterFunc` from container.go: fast path on the
container-id allow-set; slow path (container-lifecycle payloads only)
on the name set, the image-id set, and the image-name globs in turn,
promoting the container id on any slow-path match.  Returns the verdict
and the (possibly promoted) filter state. -/
def containerFilterFunc (c : ContainerFilterState) (e : TEvent) :
    Bool × ContainerFilterState :=
  if c.containerIds.contains e.containerId then (true, c)
  else
    match e.payload with
    | TelemetryPayload.container cev =>
      if c.containerNames.contains cev.name then
        (true, addContainerID c e.containerId)
      else if c.imageIds.contains cev.imageID then
        (true, addContainerID c e.containerId)
      else if cev.imageName ≠ "" && c.imageGlobs.any (fun g => g cev.imageName) then
        (true, addContainerID c e.containerId)
      else (false, c)
    | TelemetryPayload.other => (false, c)

/-! ## Event decoders (syscall.go, file.go, container.go)

Go's `data["k"].(T)` is an unchecked type assertion: when the key is
absent or the value has another dynamic type it panics, unwinding the
goroutine and killing the process.  The decoders are embedded as
`Option`-valued functions where `none` models that panic — it is not an
error return; the Go functions' `error` results are nil on every
non-panicking path of these decoders. -/

/-- A raw value in a decoded sample's `TraceEventSampleData` map, tagged
with its dynamic Go type. -/
inductive RawValue where
  | i32 (v : Int)
  | i64 (v : Int)
  | u32 (v : Nat)
  | u64 (v : Nat)
  | str (s : String)
  | boolean (b : Bool)
deriving DecidableEq, Repr

/-- `perf.TraceEventSampleData`: the raw typed-field map of a sample. -/
def RawData : Type := String → Option RawValue

/-- Go `data[k].(int64)`: `none` is a runtime panic. -/
def asI64 (d : RawData) (k : String) : Option Int :=
  match d k with
  | some (RawValue.i64 v) => some v
  | _ => none

/-- Go `data[k].(uint64)`: `none` is a runtime panic. -/
def asU64 (d : RawData) (k : String) : Option Nat :=
  match d k with
  | some (RawValue.u64 v) => some v
  | _ => none

/-- Go `data[k].(int32)`: `none` is a runtime panic. -/
def asI32 (d : RawData) (k : String) : Option Int :=
  match d k with
  | some (RawValue.i32 v) => some v
  | _ => none

/-- Go `data[k].(uint32)`: `none` is a runtime panic. -/
def asU32 (d : RawData) (k : String) : Option Nat :=
  match d k with
  | some (RawValue.u32 v) => some v
  | _ => none

/-- Go `data[k].(string)`: `none` is a runtime panic. -/
def asStr (d : RawData) (k : String) : Option String :=
  match d k with
  | some (RawValue.str s) => some s
  | _ => none

/-- Go `data[k].(bool)`: `none` is a runtime panic. -/
def asBool (d : RawData) (k : String) : Option Bool :=
  match d k with
  | some (RawValue.boolean b) => some b
  | _ => none

/-- `api.SyscallEvent` payload fields. -/
structure SyscallEventPayload where
  eventType : SyscallEventType
  id : Int := 0
  arg0 : Nat := 0
  arg1 : Nat := 0
  arg2 : Nat := 0
  arg3 : Nat := 0
  arg4 : Nat := 0
  arg5 : Nat := 0
  ret : Int := 0
deriving DecidableEq, Repr

/-- `syscallFilter.decodeSyscallTraceEnter` from syscall.go: build a
SYSCALL_EVENT_TYPE_ENTER payload from hard-typed field lookups. -/
def decodeSyscallTraceEnter (d : RawData) : Option SyscallEventPayload := do
  let id ← asI64 d "id"
  let a0 ← asU64 d "arg0"
  let a1 ← asU64 d "arg1"
  let a2 ← asU64 d "arg2"
  let a3 ← asU64 d "arg3"
  let a4 ← asU64 d "arg4"
  let a5 ← asU64 d "arg5"
  pure { eventType := SyscallEventType.enter, id := id, arg0 := a0, arg1 := a1,
         arg2 := a2, arg3 := a3, arg4 := a4, arg5 := a5 }

/-- `syscallFilter.decodeSysExit` from syscall.go. -/
def decodeSysExit (d : RawData) : Option SyscallEventPayload := do
  let id ← asI64 d "id"
  let r ← asI64 d "ret"
  pure { eventType := SyscallEventType.exit, id := id, ret := r }

/-- `api.FileEvent` payload fields for FILE_EVENT_TYPE_OPEN. -/
structure FileEventPayload where
  filename : String
  openFlags : Int
  openMode : Int
deriving DecidableEq, Repr

/-- `fileOpenFilter.decodeDoSysOpen` from file.go. -/
def decodeDoSysOpen (d : RawData) : Option FileEventPayload := do
  let fn ← asStr d "filename"
  let fl ← asI32 d "flags"
  let m ← asI32 d "mode"
  pure { filename := fn, openFlags := fl, openMode := m }

/-- The `api.ContainerEvent` payload built by
`containerCache.newContainerEvent`. -/
structure ContainerTelemetryEvent where
  containerId : String
  ctype : CEvent
  imageId : String
  imageName : String
  hostPid : Int
  exitCode : Int
  exitStatus : Nat
  exitSignal : Nat
  exitCoreDumped : Bool
  dockerConfigJson : String := ""
  ociConfigJson : String := ""
deriving DecidableEq, Repr

/-- `containerCache.newContainerEvent` from container.go: hard-typed
lookups for the required fields; the `docker_config` / `oci_config`
fields use the comma-ok assertion form and silently default. -/
def newContainerEvent (d : RawData) (ctype : CEvent) :
    Option ContainerTelemetryEvent := do
  let imageId ← asStr d "image_id"
  let imageName ← asStr d "image_name"
  let hostPid ← asI32 d "host_pid"
  let exitCode ← asI32 d "exit_code"
  let exitStatus ← asU32 d "exit_status"
  let exitSignal ← asU32 d "exit_signal"
  let exitCore ← asBool d "exit_core_dumped"
  let containerId ← asStr d "container_id"
  pure { containerId := containerId, ctype := ctype, imageId := imageId,
         imageName := imageName, hostPid := hostPid, exitCode := exitCode,
         exitStatus := exitStatus, exitSignal := exitSignal,
         exitCoreDumped := exitCore,
         dockerConfigJson :=
           (match d "docker_config" with
            | some (RawValue.str s) => s
            | _ => ""),
         ociConfigJson :=
           (match d "oci_config" with
            | some (RawValue.str s) => s
            | _ => "") }

/-- A concrete file-open subscriber filter used by witnesses. -/
def fileEventFilterExample : FileEventFilter :=
  { eventType := FileEventType.fopen
    filterExpression := ApiExpression.binary BinOp.eq
      (ApiExpression.identifier "filename")
      (ApiExpression.literal (Value.vStr "/etc/passwd")) }

/-- A concrete syscall filter whose expression does not constrain `id`,
used by witnesses. -/
def syscallFilterNoIdExample : SyscallEventFilter :=
  { eventType := SyscallEventType.enter
    filterExpression := ApiExpression.binary BinOp.eq
      (ApiExpression.identifier "arg0")
      (ApiExpression.literal (Value.vUInt 2)) }

/-- A concrete syscall filter constraining `id`, used by witnesses. -/
def syscallFilterIdExample : SyscallEventFilter :=
  { eventType := SyscallEventType.enter
    filterExpression := ApiExpression.binary BinOp.eq
      (ApiExpression.identifier "id")
      (ApiExpression.literal (Value.vInt 59)) }

theorem applyPlain_fst_pres {α β : Type} [DecidableEq α] (g : ContainerInfo → β)
    (get : ContainerInfo → α) (set : ContainerInfo → α → ContainerInfo)
    (hp : ∀ i v, g (set i v) = g i) (dv : Option α) (st : ContainerInfo × Bool) :
    g (applyPlain get set dv st).1 = g st.1 := by
  cases dv with
  | none => rfl
  | some v =>
    simp only [applyPlain]
    split
    · rfl
    · exact hp st.1 v

theorem applyPlain_fst_get {α : Type} [DecidableEq α]
    (get : ContainerInfo → α) (set : ContainerInfo → α → ContainerInfo)
    (hg : ∀ i v, get (set i v) = v) (dv : Option α) (st : ContainerInfo × Bool) :
    get (applyPlain get set dv st).1 = (dv.getD (get st.1)) := by
  cases dv with
  | none => rfl
  | some v =>
    simp only [applyPlain, Option.getD_some]
    split
    · next h => exact h.symm
    · exact hg st.1 v

theorem applyPlain_snd {α : Type} [DecidableEq α]
    (get : ContainerInfo → α) (set : ContainerInfo → α → ContainerInfo)
    (dv : Option α) (st : ContainerInfo × Bool) :
    (applyPlain get set dv st).2 = (st.2 || changedOf dv (get st.1)) := by
  cases dv with
  | none => simp [applyPlain, changedOf]
  | some v =>
    simp only [applyPlain, changedOf]
    split
    · simp_all
    · simp_all

theorem applyState_fst_pres {β : Type} (g : ContainerInfo → β)
    (hp : ∀ i v, g { i with state := v } = g i)
    (rt : ContainerRuntime) (dv : Option ContainerState) (st : ContainerInfo × Bool) :
    g (applyState rt dv st).1 = g st.1 := by
  cases dv with
  | none => rfl
  | some v =>
    simp only [applyState]
    split
    · rfl
    · split
      · exact hp st.1 v
      · rfl

theorem applyState_fst_state (rt : ContainerRuntime) (dv : Option ContainerState)
    (st : ContainerInfo × Bool) :
    (applyState rt dv st).1.state =
      (match dv with
       | none => st.1.state
       | some v => if st.1.runtime = rt then v else st.1.state) := by
  cases dv with
  | none => rfl
  | some v =>
    simp only [applyState]
    split
    · split <;> simp_all
    · split <;> rfl

theorem applyState_snd (rt : ContainerRuntime) (dv : Option ContainerState)
    (st : ContainerInfo × Bool) :
    (applyState rt dv st).2 = st.2 := by
  cases dv with
  | none => rfl
  | some v =>
    simp only [applyState]
    split
    · rfl
    · split <;> rfl

theorem updateFields_runtime (rt : ContainerRuntime) (data : UpdateData)
    (info : ContainerInfo) :
    (updateFields rt data info).1.runtime =
      data.runtime.getD
        (if info.runtime = ContainerRuntime.unknown then rt else info.runtime) := by
  simp only [updateFields]
  rw [applyPlain_fst_pres ContainerInfo.runtime ContainerInfo.id updId (fun i v => rfl),
      applyPlain_fst_pres ContainerInfo.runtime ContainerInfo.name updName (fun i v => rfl),
      applyPlain_fst_pres ContainerInfo.runtime ContainerInfo.imageID updImageID (fun i v => rfl),
      applyPlain_fst_pres ContainerInfo.runtime ContainerInfo.imageName updImageName (fun i v => rfl),
      applyPlain_fst_pres ContainerInfo.runtime ContainerInfo.pid updPid (fun i v => rfl),
      applyPlain_fst_pres ContainerInfo.runtime ContainerInfo.exitCode updExitCode (fun i v => rfl),
      applyPlain_fst_get ContainerInfo.runtime updRuntime (fun i v => rfl),
      applyState_fst_pres ContainerInfo.runtime (fun i v => rfl),
      applyPlain_fst_pres ContainerInfo.runtime ContainerInfo.jsonConfig updJsonConfig (fun i v => rfl),
      applyPlain_fst_pres ContainerInfo.runtime ContainerInfo.ociConfig updOciConfig (fun i v => rfl)]
  split <;> rfl

theorem updateFields_state (rt : ContainerRuntime) (data : UpdateData)
    (info : ContainerInfo) :
    (updateFields rt data info).1.state =
      (match data.state with
       | none => info.state
       | some v =>
         if (if info.runtime = ContainerRuntime.unknown then rt else info.runtime) = rt
         then v else info.state) := by
  simp only [updateFields]
  rw [applyPlain_fst_pres ContainerInfo.state ContainerInfo.id updId (fun i v => rfl),
      applyPlain_fst_pres ContainerInfo.state ContainerInfo.name updName (fun i v => rfl),
      applyPlain_fst_pres ContainerInfo.state ContainerInfo.imageID updImageID (fun i v => rfl),
      applyPlain_fst_pres ContainerInfo.state ContainerInfo.imageName updImageName (fun i v => rfl),
      applyPlain_fst_pres ContainerInfo.state ContainerInfo.pid updPid (fun i v => rfl),
      applyPlain_fst_pres ContainerInfo.state ContainerInfo.exitCode updExitCode (fun i v => rfl),
      applyPlain_fst_pres ContainerInfo.state ContainerInfo.runtime updRuntime (fun i v => rfl),
      applyState_fst_state,
      applyPlain_fst_pres ContainerInfo.state ContainerInfo.jsonConfig updJsonConfig (fun i v => rfl),
      applyPlain_fst_pres ContainerInfo.state ContainerInfo.ociConfig updOciConfig (fun i v => rfl),
      applyPlain_fst_pres ContainerInfo.runtime ContainerInfo.jsonConfig updJsonConfig (fun i v => rfl),
      applyPlain_fst_pres ContainerInfo.runtime ContainerInfo.ociConfig updOciConfig (fun i v => rfl)]
  cases data.state with
  | none =>
    by_cases h : info.runtime = ContainerRuntime.unknown <;> simp [h]
  | some v =>
    by_cases h : info.runtime = ContainerRuntime.unknown <;> simp [h]

theorem updateFields_id (rt : ContainerRuntime) (data : UpdateData)
    (info : ContainerInfo) :
    (updateFields rt data info).1.id = data.id.getD info.id := by
  simp only [updateFields]
  rw [applyPlain_fst_get ContainerInfo.id updId (fun i v => rfl),
      applyPlain_fst_pres ContainerInfo.id ContainerInfo.name updName (fun i v => rfl),
      applyPlain_fst_pres ContainerInfo.id ContainerInfo.imageID updImageID (fun i v => rfl),
      applyPlain_fst_pres ContainerInfo.id ContainerInfo.imageName updImageName (fun i v => rfl),
      applyPlain_fst_pres ContainerInfo.id ContainerInfo.pid updPid (fun i v => rfl),
      applyPlain_fst_pres ContainerInfo.id ContainerInfo.exitCode updExitCode (fun i v => rfl),
      applyPlain_fst_pres ContainerInfo.id ContainerInfo.runtime updRuntime (fun i v => rfl),
      applyState_fst_pres ContainerInfo.id (fun i v => rfl),
      applyPlain_fst_pres ContainerInfo.id ContainerInfo.jsonConfig updJsonConfig (fun i v => rfl),
      applyPlain_fst_pres ContainerInfo.id ContainerInfo.ociConfig updOciConfig (fun i v => rfl)]
  split <;> rfl

theorem updateFields_name (rt : ContainerRuntime) (data : UpdateData)
    (info : ContainerInfo) :
    (updateFields rt data info).1.name = data.name.getD info.name := by
  simp only [updateFields]
  rw [applyPlain_fst_pres ContainerInfo.name ContainerInfo.id updId (fun i v => rfl),
      applyPlain_fst_get ContainerInfo.name updName (fun i v => rfl),
      applyPlain_fst_pres ContainerInfo.name ContainerInfo.imageID updImageID (fun i v => rfl),
      applyPlain_fst_pres ContainerInfo.name ContainerInfo.imageName updImageName (fun i v => rfl),
      applyPlain_fst_pres ContainerInfo.name ContainerInfo.pid updPid (fun i v => rfl),
      applyPlain_fst_pres ContainerInfo.name ContainerInfo.exitCode updExitCode (fun i v => rfl),
      applyPlain_fst_pres ContainerInfo.name ContainerInfo.runtime updRuntime (fun i v => rfl),
      applyState_fst_pres ContainerInfo.name (fun i v => rfl),
      applyPlain_fst_pres ContainerInfo.name ContainerInfo.jsonConfig updJsonConfig (fun i v => rfl),
      applyPlain_fst_pres ContainerInfo.name ContainerInfo.ociConfig updOciConfig (fun i v => rfl)]
  split <;> rfl

theorem updateFields_imageID (rt : ContainerRuntime) (data : UpdateData)
    (info : ContainerInfo) :
    (updateFields rt data info).1.imageID = data.imageID.getD info.imageID := by
  simp only [updateFields]
  rw [applyPlain_fst_pres ContainerInfo.imageID ContainerInfo.id updId (fun i v => rfl),
      applyPlain_fst_pres ContainerInfo.imageID ContainerInfo.name updName (fun i v => rfl),
      applyPlain_fst_get ContainerInfo.imageID updImageID (fun i v => rfl),
      applyPlain_fst_pres ContainerInfo.imageID ContainerInfo.imageName updImageName (fun i v => rfl),
      applyPlain_fst_pres ContainerInfo.imageID ContainerInfo.pid updPid (fun i v => rfl),
      applyPlain_fst_pres ContainerInfo.imageID ContainerInfo.exitCode updExitCode (fun i v => rfl),
      applyPlain_fst_pres ContainerInfo.imageID ContainerInfo.runtime updRuntime (fun i v => rfl),
      applyState_fst_pres ContainerInfo.imageID (fun i v => rfl),
      applyPlain_fst_pres ContainerInfo.imageID ContainerInfo.jsonConfig updJsonConfig (fun i v => rfl),
      applyPlain_fst_pres ContainerInfo.imageID ContainerInfo.ociConfig updOciConfig (fun i v => rfl)]
  split <;> rfl

theorem updateFields_imageName (rt : ContainerRuntime) (data : UpdateData)
    (info : ContainerInfo) :
    (updateFields rt data info).1.imageName = data.imageName.getD info.imageName := by
  simp only [updateFields]
  rw [applyPlain_fst_pres ContainerInfo.imageName ContainerInfo.id updId (fun i v => rfl),
      applyPlain_fst_pres ContainerInfo.imageName ContainerInfo.name updName (fun i v => rfl),
      applyPlain_fst_pres ContainerInfo.imageName ContainerInfo.imageID updImageID (fun i v => rfl),
      applyPlain_fst_get ContainerInfo.imageName updImageName (fun i v => rfl),
      applyPlain_fst_pres ContainerInfo.imageName ContainerInfo.pid updPid (fun i v => rfl),
      applyPlain_fst_pres ContainerInfo.imageName ContainerInfo.exitCode updExitCode (fun i v => rfl),
      applyPlain_fst_pres ContainerInfo.imageName ContainerInfo.runtime updRuntime (fun i v => rfl),
      applyState_fst_pres ContainerInfo.imageName (fun i v => rfl),
      applyPlain_fst_pres ContainerInfo.imageName ContainerInfo.jsonConfig updJsonConfig (fun i v => rfl),
      applyPlain_fst_pres ContainerInfo.imageName ContainerInfo.ociConfig updOciConfig (fun i v => rfl)]
  split <;> rfl

theorem updateFields_pid (rt : ContainerRuntime) (data : UpdateData)
    (info : ContainerInfo) :
    (updateFields rt data info).1.pid = data.pid.getD info.pid := by
  simp only [updateFields]
  rw [applyPlain_fst_pres ContainerInfo.pid ContainerInfo.id updId (fun i v => rfl),
      applyPlain_fst_pres ContainerInfo.pid ContainerInfo.name updName (fun i v => rfl),
      applyPlain_fst_pres ContainerInfo.pid ContainerInfo.imageID updImageID (fun i v => rfl),
      applyPlain_fst_pres ContainerInfo.pid ContainerInfo.imageName updImageName (fun i v => rfl),
      applyPlain_fst_get ContainerInfo.pid updPid (fun i v => rfl),
      applyPlain_fst_pres ContainerInfo.pid ContainerInfo.exitCode updExitCode (fun i v => rfl),
      applyPlain_fst_pres ContainerInfo.pid ContainerInfo.runtime updRuntime (fun i v => rfl),
      applyState_fst_pres ContainerInfo.pid (fun i v => rfl),
      applyPlain_fst_pres ContainerInfo.pid ContainerInfo.jsonConfig updJsonConfig (fun i v => rfl),
      applyPlain_fst_pres ContainerInfo.pid ContainerInfo.ociConfig updOciConfig (fun i v => rfl)]
  split <;> rfl

theorem updateFields_exitCode (rt : ContainerRuntime) (data : UpdateData)
    (info : ContainerInfo) :
    (updateFields rt data info).1.exitCode = data.exitCode.getD info.exitCode := by
  simp only [updateFields]
  rw [applyPlain_fst_pres ContainerInfo.exitCode ContainerInfo.id updId (fun i v => rfl),
      applyPlain_fst_pres ContainerInfo.exitCode ContainerInfo.name updName (fun i v => rfl),
      applyPlain_fst_pres ContainerInfo.exitCode ContainerInfo.imageID updImageID (fun i v => rfl),
      applyPlain_fst_pres ContainerInfo.exitCode ContainerInfo.imageName updImageName (fun i v => rfl),
      applyPlain_fst_pres ContainerInfo.exitCode ContainerInfo.pid updPid (fun i v => rfl),
      applyPlain_fst_get ContainerInfo.exitCode updExitCode (fun i v => rfl),
      applyPlain_fst_pres ContainerInfo.exitCode ContainerInfo.runtime updRuntime (fun i v => rfl),
      applyState_fst_pres ContainerInfo.exitCode (fun i v => rfl),
      applyPlain_fst_pres ContainerInfo.exitCode ContainerInfo.jsonConfig updJsonConfig (fun i v => rfl),
      applyPlain_fst_pres ContainerInfo.exitCode ContainerInfo.ociConfig updOciConfig (fun i v => rfl)]
  split <;> rfl

theorem updateFields_jsonConfig (rt : ContainerRuntime) (data : UpdateData)
    (info : ContainerInfo) :
    (updateFields rt data info).1.jsonConfig = data.jsonConfig.getD info.jsonConfig := by
  simp only [updateFields]
  rw [applyPlain_fst_pres ContainerInfo.jsonConfig ContainerInfo.id updId (fun i v => rfl),
      applyPlain_fst_pres ContainerInfo.jsonConfig ContainerInfo.name updName (fun i v => rfl),
      applyPlain_fst_pres ContainerInfo.jsonConfig ContainerInfo.imageID updImageID (fun i v => rfl),
      applyPlain_fst_pres ContainerInfo.jsonConfig ContainerInfo.imageName updImageName (fun i v => rfl),
      applyPlain_fst_pres ContainerInfo.jsonConfig ContainerInfo.pid updPid (fun i v => rfl),
      applyPlain_fst_pres ContainerInfo.jsonConfig ContainerInfo.exitCode updExitCode (fun i v => rfl),
      applyPlain_fst_pres ContainerInfo.jsonConfig ContainerInfo.runtime updRuntime (fun i v => rfl),
      applyState_fst_pres ContainerInfo.jsonConfig (fun i v => rfl),
      applyPlain_fst_get ContainerInfo.jsonConfig updJsonConfig (fun i v => rfl),
      applyPlain_fst_pres ContainerInfo.jsonConfig ContainerInfo.ociConfig updOciConfig (fun i v => rfl)]
  split <;> rfl

theorem updateFields_ociConfig (rt : ContainerRuntime) (data : UpdateData)
    (info : ContainerInfo) :
    (updateFields rt data info).1.ociConfig = data.ociConfig.getD info.ociConfig := by
  simp only [updateFields]
  rw [applyPlain_fst_pres ContainerInfo.ociConfig ContainerInfo.id updId (fun i v => rfl),
      applyPlain_fst_pres ContainerInfo.ociConfig ContainerInfo.name updName (fun i v => rfl),
      applyPlain_fst_pres ContainerInfo.ociConfig ContainerInfo.imageID updImageID (fun i v => rfl),
      applyPlain_fst_pres ContainerInfo.ociConfig ContainerInfo.imageName updImageName (fun i v => rfl),
      applyPlain_fst_pres ContainerInfo.ociConfig ContainerInfo.pid updPid (fun i v => rfl),
      applyPlain_fst_pres ContainerInfo.ociConfig ContainerInfo.exitCode updExitCode (fun i v => rfl),
      applyPlain_fst_pres ContainerInfo.ociConfig ContainerInfo.runtime updRuntime (fun i v => rfl),
      applyState_fst_pres ContainerInfo.ociConfig (fun i v => rfl),
      applyPlain_fst_pres ContainerInfo.ociConfig ContainerInfo.jsonConfig updJsonConfig (fun i v => rfl),
      applyPlain_fst_get ContainerInfo.ociConfig updOciConfig (fun i v => rfl)]
  split <;> rfl

theorem updateFields_snd (rt : ContainerRuntime) (data : UpdateData)
    (info : ContainerInfo) :
    (updateFields rt data info).2 =
      (changedOf data.ociConfig info.ociConfig ||
       changedOf data.jsonConfig info.jsonConfig ||
       changedOf data.runtime
         (if info.runtime = ContainerRuntime.unknown then rt else info.runtime) ||
       changedOf data.exitCode info.exitCode ||
       changedOf data.pid info.pid ||
       changedOf data.imageName info.imageName ||
       changedOf data.imageID info.imageID ||
       changedOf data.name info.name ||
       changedOf data.id info.id) := by
  simp only [updateFields]
  rw [applyPlain_snd ContainerInfo.id updId,
      applyPlain_snd ContainerInfo.name updName,
      applyPlain_snd ContainerInfo.imageID updImageID,
      applyPlain_snd ContainerInfo.imageName updImageName,
      applyPlain_snd ContainerInfo.pid updPid,
      applyPlain_snd ContainerInfo.exitCode updExitCode,
      applyPlain_snd ContainerInfo.runtime updRuntime,
      applyState_snd,
      applyPlain_snd ContainerInfo.jsonConfig updJsonConfig,
      applyPlain_snd ContainerInfo.ociConfig updOciConfig]
  rw [applyPlain_fst_pres ContainerInfo.id ContainerInfo.name updName (fun i v => rfl),
      applyPlain_fst_pres ContainerInfo.id ContainerInfo.imageID updImageID (fun i v => rfl),
      applyPlain_fst_pres ContainerInfo.id ContainerInfo.imageName updImageName (fun i v => rfl),
      applyPlain_fst_pres ContainerInfo.id ContainerInfo.pid updPid (fun i v => rfl),
      applyPlain_fst_pres ContainerInfo.id ContainerInfo.exitCode updExitCode (fun i v => rfl),
      applyPlain_fst_pres ContainerInfo.id ContainerInfo.runtime updRuntime (fun i v => rfl),
      applyState_fst_pres ContainerInfo.id (fun i v => rfl),
      applyPlain_fst_pres ContainerInfo.id ContainerInfo.jsonConfig updJsonConfig (fun i v => rfl),
      applyPlain_fst_pres ContainerInfo.id ContainerInfo.ociConfig updOciConfig (fun i v => rfl)]
  rw [applyPlain_fst_pres ContainerInfo.name ContainerInfo.imageID updImageID (fun i v => rfl),
      applyPlain_fst_pres ContainerInfo.name ContainerInfo.imageName updImageName (fun i v => rfl),
      applyPlain_fst_pres ContainerInfo.name ContainerInfo.pid updPid (fun i v => rfl),
      applyPlain_fst_pres ContainerInfo.name ContainerInfo.exitCode updExitCode (fun i v => rfl),
      applyPlain_fst_pres ContainerInfo.name ContainerInfo.runtime updRuntime (fun i v => rfl),
      applyState_fst_pres ContainerInfo.name (fun i v => rfl),
      applyPlain_fst_pres ContainerInfo.name ContainerInfo.jsonConfig updJsonConfig (fun i v => rfl),
      applyPlain_fst_pres ContainerInfo.name ContainerInfo.ociConfig updOciConfig (fun i v => rfl)]
  rw [applyPlain_fst_pres ContainerInfo.imageID ContainerInfo.imageName updImageName (fun i v => rfl),
      applyPlain_fst_pres ContainerInfo.imageID ContainerInfo.pid updPid (fun i v => rfl),
      applyPlain_fst_pres ContainerInfo.imageID ContainerInfo.exitCode updExitCode (fun i v => rfl),
      applyPlain_fst_pres ContainerInfo.imageID ContainerInfo.runtime updRuntime (fun i v => rfl),
      applyState_fst_pres ContainerInfo.imageID (fun i v => rfl),
      applyPlain_fst_pres ContainerInfo.imageID ContainerInfo.jsonConfig updJsonConfig (fun i v => rfl),
      applyPlain_fst_pres ContainerInfo.imageID ContainerInfo.ociConfig updOciConfig (fun i v => rfl)]
  rw [applyPlain_fst_pres ContainerInfo.imageName ContainerInfo.pid updPid (fun i v => rfl),
      applyPlain_fst_pres ContainerInfo.imageName ContainerInfo.exitCode updExitCode (fun i v => rfl),
      applyPlain_fst_pres ContainerInfo.imageName ContainerInfo.runtime updRuntime (fun i v => rfl),
      applyState_fst_pres ContainerInfo.imageName (fun i v => rfl),
      applyPlain_fst_pres ContainerInfo.imageName ContainerInfo.jsonConfig updJsonConfig (fun i v => rfl),
      applyPlain_fst_pres ContainerInfo.imageName ContainerInfo.ociConfig updOciConfig (fun i v => rfl)]
  rw [applyPlain_fst_pres ContainerInfo.pid ContainerInfo.exitCode updExitCode (fun i v => rfl),
      applyPlain_fst_pres ContainerInfo.pid ContainerInfo.runtime updRuntime (fun i v => rfl),
      applyState_fst_pres ContainerInfo.pid (fun i v => rfl),
      applyPlain_fst_pres ContainerInfo.pid ContainerInfo.jsonConfig updJsonConfig (fun i v => rfl),
      applyPlain_fst_pres ContainerInfo.pid ContainerInfo.ociConfig updOciConfig (fun i v => rfl)]
  rw [applyPlain_fst_pres ContainerInfo.exitCode ContainerInfo.runtime updRuntime (fun i v => rfl),
      applyState_fst_pres ContainerInfo.exitCode (fun i v => rfl),
      applyPlain_fst_pres ContainerInfo.exitCode ContainerInfo.jsonConfig updJsonConfig (fun i v => rfl),
      applyPlain_fst_pres ContainerInfo.exitCode ContainerInfo.ociConfig updOciConfig (fun i v => rfl)]
  rw [applyState_fst_pres ContainerInfo.runtime (fun i v => rfl),
      applyPlain_fst_pres ContainerInfo.runtime ContainerInfo.jsonConfig updJsonConfig (fun i v => rfl),
      applyPlain_fst_pres ContainerInfo.runtime ContainerInfo.ociConfig updOciConfig (fun i v => rfl)]
  rw [applyPlain_fst_pres ContainerInfo.jsonConfig ContainerInfo.ociConfig updOciConfig (fun i v => rfl)]
  by_cases h : info.runtime = ContainerRuntime.unknown <;> simp [h]

theorem emitEvents_mem_running (o n : ContainerState) (dc : Bool) (hne : n ≠ o) :
    (CEvent.running ∈ emitEvents o n dc ↔
      o.ord < ContainerState.running.ord ∧ ContainerState.running.ord ≤ n.ord) := by
  unfold emitEvents
  rw [if_pos hne]
  simp only [List.mem_append]
  split_ifs with h1 h2 h3 <;> simp_all

theorem emitEvents_mem_exited (o n : ContainerState) (dc : Bool) (hne : n ≠ o) :
    (CEvent.exited ∈ emitEvents o n dc ↔
      o.ord < ContainerState.restarting.ord ∧ ContainerState.restarting.ord ≤ n.ord) := by
  unfold emitEvents
  rw [if_pos hne]
  simp only [List.mem_append]
  split_ifs with h1 h2 h3 <;> simp_all

theorem emitEvents_same_state (o : ContainerState) (dc : Bool) :
    emitEvents o o dc = (if dc then [CEvent.updated] else []) := by
  unfold emitEvents
  simp

/-- C1: a single `Update` call on a fresh cache entry (state unknown, as
created by `lookupContainer`) whose data sets the state to running emits
exactly a CREATED event followed by a RUNNING event, in that order. -/
theorem claim1_fresh_update_to_running (rt : ContainerRuntime) (data : UpdateData)
    (cid : String) (h : data.state = some ContainerState.running) :
    (ContainerInfo.update rt data (newContainerInfo cid)).2 =
      [CEvent.created, CEvent.running] := by
  have hs : (updateFields rt data (newContainerInfo cid)).1.state =
      ContainerState.running := by
    rw [updateFields_state, h]
    simp [newContainerInfo]
  show emitEvents (newContainerInfo cid).state
      (updateFields rt data (newContainerInfo cid)).1.state
      (updateFields rt data (newContainerInfo cid)).2 = [CEvent.created, CEvent.running]
  rw [hs]
  show emitEvents ContainerState.unknown ContainerState.running _ = _
  simp [emitEvents, ContainerState.ord]

/-- Witness for C1 at a concrete input. -/
theorem claim1_fresh_update_to_running_witness :
    ({ state := some ContainerState.running } : UpdateData).state =
        some ContainerState.running ∧
    (ContainerInfo.update ContainerRuntime.docker
        { state := some ContainerState.running } (newContainerInfo "c1")).2 =
      [CEvent.created, CEvent.running] :=
  ⟨rfl, claim1_fresh_update_to_running ContainerRuntime.docker
      { state := some ContainerState.running } "c1" rfl⟩

/-- C2: for an `Update` call that changes the container's state, EXITED
is emitted exactly when the previous state ordinal is below `restarting`
and the new one is at or above it; a direct jump from below `restarting`
to `removing` therefore emits EXITED, while an update landing exactly on
`paused` emits neither RUNNING nor EXITED. -/
theorem claim2_exited_threshold (rt : ContainerRuntime) (data : UpdateData)
    (info : ContainerInfo)
    (h : (ContainerInfo.update rt data info).1.state ≠ info.state) :
    (CEvent.exited ∈ (ContainerInfo.update rt data info).2 ↔
      info.state.ord < ContainerState.restarting.ord ∧
      ContainerState.restarting.ord ≤ (ContainerInfo.update rt data info).1.state.ord) ∧
    ((ContainerInfo.update rt data info).1.state = ContainerState.removing →
      info.state.ord < ContainerState.restarting.ord →
      CEvent.exited ∈ (ContainerInfo.update rt data info).2) ∧
    ((ContainerInfo.update rt data info).1.state = ContainerState.paused →
      CEvent.running ∉ (ContainerInfo.update rt data info).2 ∧
      CEvent.exited ∉ (ContainerInfo.update rt data info).2) := by
  have h2 : (ContainerInfo.update rt data info).2 =
      emitEvents info.state (updateFields rt data info).1.state
        (updateFields rt data info).2 := rfl
  have h1 : (ContainerInfo.update rt data info).1 = (updateFields rt data info).1 := rfl
  rw [h1] at h ⊢
  rw [h2]
  refine ⟨emitEvents_mem_exited _ _ _ h, ?_, ?_⟩
  · intro hrm hlt
    rw [emitEvents_mem_exited _ _ _ h, hrm]
    exact ⟨hlt, by decide⟩
  · intro hp
    rw [hp] at h ⊢
    constructor
    · rw [emitEvents_mem_running _ _ _ h]
      simp [ContainerState.ord]
    · rw [emitEvents_mem_exited _ _ _ h]
      simp [ContainerState.ord]

/-- Witness for C2 at a concrete input: a running container owned by
Docker jumps straight to removing and EXITED is emitted. -/
theorem claim2_exited_threshold_witness :
    CEvent.exited ∈ (ContainerInfo.update ContainerRuntime.docker
      { state := some ContainerState.removing }
      { newContainerInfo "c2" with
        runtime := ContainerRuntime.docker,
        state := ContainerState.running }).2 := by
  have h := claim2_exited_threshold ContainerRuntime.docker
    { state := some ContainerState.removing }
    { newContainerInfo "c2" with
      runtime := ContainerRuntime.docker,
      state := ContainerState.running } (by decide)
  exact h.2.1 (by decide) (by decide)

/-- C3: an `Update` from a runtime other than the fixed cached authority
ignores a state value in the data entirely (the cached state is
unchanged and the ignored state does not count toward "data changed"),
still applies every other attribute present in the data, and emits
exactly one UPDATED event iff at least one non-state attribute changed
(no CREATED/RUNNING/EXITED is possible since the state cannot move). -/
theorem claim3_authority_guard (rt : ContainerRuntime) (data : UpdateData)
    (info : ContainerInfo) (hset : info.runtime ≠ ContainerRuntime.unknown)
    (hne : rt ≠ info.runtime) :
    (ContainerInfo.update rt data info).1.state = info.state ∧
    (ContainerInfo.update rt data info).1.id = data.id.getD info.id ∧
    (ContainerInfo.update rt data info).1.name = data.name.getD info.name ∧
    (ContainerInfo.update rt data info).1.imageID = data.imageID.getD info.imageID ∧
    (ContainerInfo.update rt data info).1.imageName = data.imageName.getD info.imageName ∧
    (ContainerInfo.update rt data info).1.pid = data.pid.getD info.pid ∧
    (ContainerInfo.update rt data info).1.exitCode = data.exitCode.getD info.exitCode ∧
    (ContainerInfo.update rt data info).1.runtime = data.runtime.getD info.runtime ∧
    (ContainerInfo.update rt data info).1.jsonConfig = data.jsonConfig.getD info.jsonConfig ∧
    (ContainerInfo.update rt data info).1.ociConfig = data.ociConfig.getD info.ociConfig ∧
    (ContainerInfo.update rt data info).2 =
      (if (changedOf data.ociConfig info.ociConfig ||
           changedOf data.jsonConfig info.jsonConfig ||
           changedOf data.runtime info.runtime ||
           changedOf data.exitCode info.exitCode ||
           changedOf data.pid info.pid ||
           changedOf data.imageName info.imageName ||
           changedOf data.imageID info.imageID ||
           changedOf data.name info.name ||
           changedOf data.id info.id) = true
       then [CEvent.updated] else []) := by
  have hfst : (ContainerInfo.update rt data info).1 = (updateFields rt data info).1 := rfl
  have hr0 : (if info.runtime = ContainerRuntime.unknown then rt else info.runtime) =
      info.runtime := if_neg hset
  have hstate : (updateFields rt data info).1.state = info.state := by
    rw [updateFields_state]
    cases data.state with
    | none => rfl
    | some v =>
      show (if (if info.runtime = ContainerRuntime.unknown then rt else info.runtime) = rt
            then v else info.state) = info.state
      rw [hr0, if_neg (Ne.symm hne)]
  have hsnd : (ContainerInfo.update rt data info).2 =
      (if (changedOf data.ociConfig info.ociConfig ||
           changedOf data.jsonConfig info.jsonConfig ||
           changedOf data.runtime info.runtime ||
           changedOf data.exitCode info.exitCode ||
           changedOf data.pid info.pid ||
           changedOf data.imageName info.imageName ||
           changedOf data.imageID info.imageID ||
           changedOf data.name info.name ||
           changedOf data.id info.id) = true
       then [CEvent.updated] else []) := by
    show emitEvents info.state (updateFields rt data info).1.state
        (updateFields rt data info).2 = _
    rw [hstate, emitEvents_same_state, updateFields_snd, hr0]
  rw [hfst]
  exact ⟨hstate, updateFields_id rt data info, updateFields_name rt data info,
    updateFields_imageID rt data info, updateFields_imageName rt data info,
    updateFields_pid rt data info, updateFields_exitCode rt data info,
    by rw [updateFields_runtime, hr0], updateFields_jsonConfig rt data info,
    updateFields_ociConfig rt data info, hsnd⟩

/-- Witness for C3 at a concrete input: a Docker-owned running container
receives a state change plus a name change from a non-authoritative
source; the state is ignored and only the name is applied. -/
theorem claim3_authority_guard_witness :
    (ContainerInfo.update ContainerRuntime.unknown
      { state := some ContainerState.exited, name := some "web" }
      { newContainerInfo "c3" with
        runtime := ContainerRuntime.docker,
        state := ContainerState.running }).1.state = ContainerState.running ∧
    (ContainerInfo.update ContainerRuntime.unknown
      { state := some ContainerState.exited, name := some "web" }
      { newContainerInfo "c3" with
        runtime := ContainerRuntime.docker,
        state := ContainerState.running }).1.name = "web" ∧
    (ContainerInfo.update ContainerRuntime.unknown
      { state := some ContainerState.exited, name := some "web" }
      { newContainerInfo "c3" with
        runtime := ContainerRuntime.docker,
        state := ContainerState.running }).2 = [CEvent.updated] := by
  have h := claim3_authority_guard ContainerRuntime.unknown
    { state := some ContainerState.exited, name := some "web" }
    { newContainerInfo "c3" with
      runtime := ContainerRuntime.docker,
      state := ContainerState.running } (by decide) (by decide)
  refine ⟨h.1, ?_, ?_⟩
  · rw [h.2.2.1]
    rfl
  · rw [h.2.2.2.2.2.2.2.2.2.2]
    rfl

theorem mapLookup_eq_none (l : List (String × ContainerInfo)) (k : String)
    (h : k ∉ l.map Prod.fst) : mapLookup l k = none := by
  induction l with
  | nil => rfl
  | cons p rest ih =>
    obtain ⟨k0, v0⟩ := p
    simp only [List.map_cons, List.mem_cons] at h
    push_neg at h
    simp only [mapLookup]
    rw [if_neg (fun hh => h.1 hh.symm)]
    exact ih h.2

theorem mapLookup_mapErase_self (l : List (String × ContainerInfo)) (k : String)
    (h : (l.map Prod.fst).Nodup) : mapLookup (mapErase l k) k = none := by
  induction l with
  | nil => rfl
  | cons p rest ih =>
    obtain ⟨k0, v0⟩ := p
    simp only [List.map_cons, List.nodup_cons] at h
    simp only [mapErase]
    by_cases hk : k0 = k
    · rw [if_pos hk]
      exact mapLookup_eq_none rest k (hk ▸ h.1)
    · rw [if_neg hk]
      simp only [mapLookup]
      rw [if_neg hk]
      exact ih h.2

theorem mapLookup_mapErase_ne (l : List (String × ContainerInfo)) (k k' : String)
    (h : k' ≠ k) : mapLookup (mapErase l k) k' = mapLookup l k' := by
  induction l with
  | nil => rfl
  | cons p rest ih =>
    obtain ⟨k0, v0⟩ := p
    simp only [mapErase]
    by_cases hk : k0 = k
    · rw [if_pos hk]
      simp only [mapLookup]
      rw [if_neg (fun hh => h ((hk.symm.trans hh).symm))]
    · rw [if_neg hk]
      simp only [mapLookup]
      by_cases hk' : k0 = k'
      · rw [if_pos hk', if_pos hk']
      · rw [if_neg hk', if_neg hk']
        exact ih

/-- C4: `deleteContainer(id, runtime)` removes the cache entry and emits
exactly one DESTROYED event carrying the entry's last-known data iff an
entry for the id exists and the caller's runtime equals the entry's
recorded authority; otherwise the cache and event stream are untouched. -/
theorem claim4_deleteContainer_authority (cache : List (String × ContainerInfo))
    (cid : String) (rt : ContainerRuntime)
    (hnodup : (cache.map Prod.fst).Nodup) :
    (∀ info, mapLookup cache cid = some info → rt = info.runtime →
      (deleteContainer cache cid rt).2 =
          [(CEvent.destroyed, containerEventData info)] ∧
      mapLookup (deleteContainer cache cid rt).1 cid = none ∧
      ∀ k, k ≠ cid → mapLookup (deleteContainer cache cid rt).1 k = mapLookup cache k) ∧
    ((∀ info, mapLookup cache cid = some info → rt ≠ info.runtime) →
      deleteContainer cache cid rt = (cache, [])) := by
  cases hl : mapLookup cache cid with
  | none =>
    refine ⟨?_, ?_⟩
    · intro info h
      cases h
    · intro _
      simp [deleteContainer, hl]
  | some info0 =>
    refine ⟨?_, ?_⟩
    · intro info h hrt
      injection h with h
      subst h
      have hd : deleteContainer cache cid rt =
          (mapErase cache cid, [(CEvent.destroyed, containerEventData info0)]) := by
        simp only [deleteContainer, hl]
        rw [if_pos hrt]
      rw [hd]
      exact ⟨rfl, mapLookup_mapErase_self cache cid hnodup,
        fun k hk => mapLookup_mapErase_ne cache cid k hk⟩
    · intro hno
      simp only [deleteContainer, hl]
      rw [if_neg (hno info0 rfl)]

/-- Witness for C4 at a concrete input: deleting a Docker-owned entry
with matching authority emits DESTROYED with the decoded exit data and
removes the entry. -/
theorem claim4_deleteContainer_authority_witness :
    (deleteContainer
      [("a", { newContainerInfo "a" with
          runtime := ContainerRuntime.docker,
          state := ContainerState.exited, exitCode := 9 }),
       ("b", newContainerInfo "b")] "a" ContainerRuntime.docker).2 =
      [(CEvent.destroyed, containerEventData
        { newContainerInfo "a" with
          runtime := ContainerRuntime.docker,
          state := ContainerState.exited, exitCode := 9 })] ∧
    mapLookup (deleteContainer
      [("a", { newContainerInfo "a" with
          runtime := ContainerRuntime.docker,
          state := ContainerState.exited, exitCode := 9 }),
       ("b", newContainerInfo "b")] "a" ContainerRuntime.docker).1 "a" = none := by
  have h := (claim4_deleteContainer_authority
    [("a", { newContainerInfo "a" with
        runtime := ContainerRuntime.docker,
        state := ContainerState.exited, exitCode := 9 }),
     ("b", newContainerInfo "b")] "a" ContainerRuntime.docker (by decide)).1
    { newContainerInfo "a" with
        runtime := ContainerRuntime.docker,
        state := ContainerState.exited, exitCode := 9 } (by decide) (by decide)
  exact ⟨h.1, h.2.1⟩

theorem compileKernel_correct (e : ApiExpression) :
    ∀ k, compileKernel e = some k →
      ∀ s : Sample, KFilter.accepts s k = ApiExpression.test s e := by
  induction e with
  | identifier n =>
    intro k h s
    simp [compileKernel] at h
  | literal v =>
    intro k h s
    simp [compileKernel] at h
  | null =>
    intro k h s
    simp [compileKernel] at h
  | binary op l r ihl ihr =>
    intro k h s
    cases op
    case logicalAnd =>
      cases hl : compileKernel l with
      | none => rw [compileKernel, hl] at h; cases h
      | some a =>
        cases hr : compileKernel r with
        | none => rw [compileKernel, hl, hr] at h; cases h
        | some b =>
          rw [compileKernel, hl, hr] at h
          injection h with h
          subst h
          simp [KFilter.accepts, ApiExpression.test, ihl a hl s, ihr b hr s]
    case logicalOr =>
      cases hl : compileKernel l with
      | none => rw [compileKernel, hl] at h; cases h
      | some a =>
        cases hr : compileKernel r with
        | none => rw [compileKernel, hl, hr] at h; cases h
        | some b =>
          rw [compileKernel, hl, hr] at h
          injection h with h
          subst h
          simp [KFilter.accepts, ApiExpression.test, ihl a hl s, ihr b hr s]
    all_goals
      cases l <;> cases r <;> simp [compileKernel] at h <;> subst h <;> rename_i f v <;>
        (cases hsf : s f <;>
          simp [KFilter.accepts, ApiExpression.test, evalOperand, hsf])

theorem mem_dedupInsert (l : List KFilter) (k k' : KFilter) :
    k' ∈ dedupInsert l k ↔ k' ∈ l ∨ k' = k := by
  by_cases h : k ∈ l
  · simp only [dedupInsert, if_pos h]
    constructor
    · exact Or.inl
    · rintro (hk | hk)
      · exact hk
      · exact hk ▸ h
  · simp [dedupInsert, if_neg h]

theorem collectFileStep_compiled (acc : Bool × List KFilter) (f : FileEventFilter)
    (hof : f.eventType = FileEventType.fopen) (kf : KFilter)
    (hkf : compileKernel (rewriteFileEventFilter f).filterExpression = some kf) :
    collectFileStep acc f = (acc.1, dedupInsert acc.2 kf) := by
  have hnn : (rewriteFileEventFilter f).filterExpression ≠ ApiExpression.null := by
    intro hfe
    rw [hfe] at hkf
    cases hkf
  simp only [collectFileStep]
  rw [if_neg (fun hne => hne hof), if_neg hnn, hkf]

theorem collectFileStep_null (acc : Bool × List KFilter) (f : FileEventFilter)
    (hof : f.eventType = FileEventType.fopen)
    (hnull : (rewriteFileEventFilter f).filterExpression = ApiExpression.null) :
    collectFileStep acc f = (true, acc.2) := by
  simp only [collectFileStep]
  rw [if_neg (fun hne => hne hof), if_pos hnull]

theorem collectFileStep_fst_mono (acc : Bool × List KFilter) (f : FileEventFilter)
    (ha : acc.1 = true) : (collectFileStep acc f).1 = true := by
  simp only [collectFileStep]
  split
  · exact ha
  · split
    · rfl
    · split
      · exact ha
      · exact ha

theorem collectFile_foldl_fst_true (events : List FileEventFilter) :
    ∀ acc : Bool × List KFilter, acc.1 = true →
      (List.foldl collectFileStep acc events).1 = true := by
  induction events with
  | nil => intro acc ha; exact ha
  | cons f rest ih =>
    intro acc ha
    exact ih (collectFileStep acc f) (collectFileStep_fst_mono acc f ha)

theorem collectFile_foldl_wildcard (events : List FileEventFilter)
    (f : FileEventFilter) (hf : f ∈ events)
    (hof : f.eventType = FileEventType.fopen)
    (hnull : (rewriteFileEventFilter f).filterExpression = ApiExpression.null) :
    ∀ acc : Bool × List KFilter,
      (List.foldl collectFileStep acc events).1 = true := by
  induction events with
  | nil => cases hf
  | cons g rest ih =>
    intro acc
    rcases List.mem_cons.mp hf with hg | hg
    · subst hg
      rw [List.foldl_cons, collectFileStep_null acc f hof hnull]
      exact collectFile_foldl_fst_true rest (true, acc.2) rfl
    · exact ih hg (collectFileStep acc g)

theorem collectFile_foldl_go (events : List FileEventFilter)
    (hopen : ∀ f ∈ events, f.eventType = FileEventType.fopen)
    (hcomp : ∀ f ∈ events, ∃ kf,
      compileKernel (rewriteFileEventFilter f).filterExpression = some kf) :
    ∀ acc : Bool × List KFilter,
      (List.foldl collectFileStep acc events).1 = acc.1 ∧
      ∀ k, k ∈ (List.foldl collectFileStep acc events).2 ↔
        (k ∈ acc.2 ∨ ∃ f ∈ events,
          compileKernel (rewriteFileEventFilter f).filterExpression = some k) := by
  induction events with
  | nil =>
    intro acc
    simp
  | cons f rest ih =>
    intro acc
    have hof : f.eventType = FileEventType.fopen := hopen f (List.mem_cons_self f rest)
    obtain ⟨kf, hkf⟩ := hcomp f (List.mem_cons_self f rest)
    have hstep := collectFileStep_compiled acc f hof kf hkf
    rw [List.foldl_cons, hstep]
    obtain ⟨ih1, ih2⟩ := ih
      (fun g hg => hopen g (List.mem_cons_of_mem f hg))
      (fun g hg => hcomp g (List.mem_cons_of_mem f hg))
      (acc.1, dedupInsert acc.2 kf)
    refine ⟨ih1, fun k => ?_⟩
    rw [ih2 k]
    constructor
    · rintro (hk | hk)
      · rcases (mem_dedupInsert acc.2 kf k).mp hk with hk | hk
        · exact Or.inl hk
        · exact Or.inr ⟨f, List.mem_cons_self f rest, hk ▸ hkf⟩
      · obtain ⟨g, hg, hgk⟩ := hk
        exact Or.inr ⟨g, List.mem_cons_of_mem f hg, hgk⟩
    · rintro (hk | hk)
      · exact Or.inl ((mem_dedupInsert acc.2 kf k).mpr (Or.inl hk))
      · obtain ⟨g, hg, hgk⟩ := hk
        rcases List.mem_cons.mp hg with hgf | hgf
        · subst hgf
          rw [hkf] at hgk
          injection hgk with hgk
          exact Or.inl ((mem_dedupInsert acc.2 kf k).mpr (Or.inr hgk.symm))
        · exact Or.inr ⟨g, hgf, hgk⟩

/-- The file-open half of the subscription-merge property: the
registered kernel filter is the " || "-disjunction of the distinct
parenthesized compiled filter strings and accepts a sample iff at least
one post-rewrite requester filter accepts it; a requester without a
filter expression makes the group unconditional. -/
theorem registerFileEvents_merge (events : List FileEventFilter)
    (hopen : ∀ f ∈ events, f.eventType = FileEventType.fopen)
    (hne : events ≠ []) :
    ((∀ f ∈ events, ∃ kf,
        compileKernel (rewriteFileEventFilter f).filterExpression = some kf) →
      ∃ ks, registerFileEvents events = some (KernelFilterSpec.disjunction ks) ∧
        KernelFilterSpec.filterString (KernelFilterSpec.disjunction ks) =
          String.intercalate " || " (ks.map (fun k => "(" ++ printKFilter k ++ ")")) ∧
        ∀ s : Sample,
          KernelFilterSpec.accepts s (KernelFilterSpec.disjunction ks) = true ↔
            ∃ f ∈ events,
              ApiExpression.test s (rewriteFileEventFilter f).filterExpression = true) ∧
    ((∃ f ∈ events,
        (rewriteFileEventFilter f).filterExpression = ApiExpression.null) →
      registerFileEvents events = some KernelFilterSpec.unconditional ∧
      ∀ s : Sample,
        KernelFilterSpec.accepts s KernelFilterSpec.unconditional = true) := by
  constructor
  · intro hcomp
    obtain ⟨hfst, hmem⟩ := collectFile_foldl_go events hopen hcomp (false, [])
    have hfst' : (collectFileFilters events).1 = false := hfst
    have hksne : (collectFileFilters events).2 ≠ [] := by
      obtain ⟨f, hf⟩ := List.exists_mem_of_ne_nil events hne
      obtain ⟨kf, hkf⟩ := hcomp f hf
      have : kf ∈ (collectFileFilters events).2 :=
        (hmem kf).mpr (Or.inr ⟨f, hf, hkf⟩)
      exact List.ne_nil_of_mem this
    refine ⟨(collectFileFilters events).2, ?_, rfl, ?_⟩
    · simp only [registerFileEvents]
      rw [if_pos hfst', if_neg hksne]
    · intro s
      simp only [KernelFilterSpec.accepts, List.any_eq_true]
      constructor
      · rintro ⟨k, hk, hacc⟩
        rcases (hmem k).mp hk with hk' | ⟨f, hf, hkf⟩
        · cases hk'
        · exact ⟨f, hf, by rw [← compileKernel_correct _ k hkf s]; exact hacc⟩
      · rintro ⟨f, hf, htest⟩
        obtain ⟨kf, hkf⟩ := hcomp f hf
        refine ⟨kf, (hmem kf).mpr (Or.inr ⟨f, hf, hkf⟩), ?_⟩
        rw [compileKernel_correct _ kf hkf s]
        exact htest
  · rintro ⟨f, hf, hnull⟩
    have hwc : (collectFileFilters events).1 = true :=
      collectFile_foldl_wildcard events f hf (hopen f hf) hnull (false, [])
    constructor
    · simp only [registerFileEvents]
      rw [if_neg (by rw [hwc]; exact fun h => Bool.noConfusion h),
          if_neg hne]
    · intro s
      rfl

theorem rewriteSyscallEventFilter_eventType (sef : SyscallEventFilter) :
    (rewriteSyscallEventFilter sef).eventType = sef.eventType := by
  simp only [rewriteSyscallEventFilter]
  repeat' split
  all_goals rfl

theorem collectSyscallStep_enter (acc : List KFilter × List KFilter)
    (f : SyscallEventFilter) (hty : f.eventType = SyscallEventType.enter)
    (hcid : containsIDFilter (rewriteSyscallEventFilter f).filterExpression = true)
    (kf : KFilter)
    (hkf : compileKernel (rewriteSyscallEventFilter f).filterExpression = some kf) :
    collectSyscallStep acc f = (dedupInsert acc.1 kf, acc.2) := by
  have hety : (rewriteSyscallEventFilter f).eventType = SyscallEventType.enter := by
    rw [rewriteSyscallEventFilter_eventType, hty]
  simp only [collectSyscallStep]
  rw [if_pos hcid, hkf, hety]

theorem collectSyscallStep_exit (acc : List KFilter × List KFilter)
    (f : SyscallEventFilter) (hty : f.eventType = SyscallEventType.exit)
    (hcid : containsIDFilter (rewriteSyscallEventFilter f).filterExpression = true)
    (kf : KFilter)
    (hkf : compileKernel (rewriteSyscallEventFilter f).filterExpression = some kf) :
    collectSyscallStep acc f = (acc.1, dedupInsert acc.2 kf) := by
  have hety : (rewriteSyscallEventFilter f).eventType = SyscallEventType.exit := by
    rw [rewriteSyscallEventFilter_eventType, hty]
  simp only [collectSyscallStep]
  rw [if_pos hcid, hkf, hety]

theorem collectSyscall_skip (sef : SyscallEventFilter)
    (rest : List SyscallEventFilter)
    (h : containsIDFilter (rewriteSyscallEventFilter sef).filterExpression = false) :
    collectSyscallFilters (sef :: rest) = collectSyscallFilters rest := by
  have hstep : collectSyscallStep ([], []) sef = ([], []) := by
    simp only [collectSyscallStep]
    rw [if_neg (by rw [h]; exact fun hc => Bool.noConfusion hc)]
  show List.foldl collectSyscallStep (collectSyscallStep ([], []) sef) rest =
    List.foldl collectSyscallStep ([], []) rest
  rw [hstep]

theorem collectSyscall_foldl_enter_go (events : List SyscallEventFilter)
    (hall : ∀ f ∈ events, f.eventType = SyscallEventType.enter)
    (hcid : ∀ f ∈ events,
      containsIDFilter (rewriteSyscallEventFilter f).filterExpression = true)
    (hcomp : ∀ f ∈ events, ∃ kf,
      compileKernel (rewriteSyscallEventFilter f).filterExpression = some kf) :
    ∀ acc : List KFilter × List KFilter,
      (List.foldl collectSyscallStep acc events).2 = acc.2 ∧
      ∀ k, k ∈ (List.foldl collectSyscallStep acc events).1 ↔
        (k ∈ acc.1 ∨ ∃ f ∈ events,
          compileKernel (rewriteSyscallEventFilter f).filterExpression = some k) := by
  induction events with
  | nil =>
    intro acc
    simp
  | cons f rest ih =>
    intro acc
    have hof := hall f (List.mem_cons_self f rest)
    obtain ⟨kf, hkf⟩ := hcomp f (List.mem_cons_self f rest)
    have hstep := collectSyscallStep_enter acc f hof
      (hcid f (List.mem_cons_self f rest)) kf hkf
    rw [List.foldl_cons, hstep]
    obtain ⟨ih1, ih2⟩ := ih
      (fun g hg => hall g (List.mem_cons_of_mem f hg))
      (fun g hg => hcid g (List.mem_cons_of_mem f hg))
      (fun g hg => hcomp g (List.mem_cons_of_mem f hg))
      (dedupInsert acc.1 kf, acc.2)
    refine ⟨ih1, fun k => ?_⟩
    rw [ih2 k]
    constructor
    · rintro (hk | hk)
      · rcases (mem_dedupInsert acc.1 kf k).mp hk with hk | hk
        · exact Or.inl hk
        · exact Or.inr ⟨f, List.mem_cons_self f rest, hk ▸ hkf⟩
      · obtain ⟨g, hg, hgk⟩ := hk
        exact Or.inr ⟨g, List.mem_cons_of_mem f hg, hgk⟩
    · rintro (hk | hk)
      · exact Or.inl ((mem_dedupInsert acc.1 kf k).mpr (Or.inl hk))
      · obtain ⟨g, hg, hgk⟩ := hk
        rcases List.mem_cons.mp hg with hgf | hgf
        · subst hgf
          rw [hkf] at hgk
          injection hgk with hgk
          exact Or.inl ((mem_dedupInsert acc.1 kf k).mpr (Or.inr hgk.symm))
        · exact Or.inr ⟨g, hgf, hgk⟩

theorem collectSyscall_foldl_exit_go (events : List SyscallEventFilter)
    (hall : ∀ f ∈ events, f.eventType = SyscallEventType.exit)
    (hcid : ∀ f ∈ events,
      containsIDFilter (rewriteSyscallEventFilter f).filterExpression = true)
    (hcomp : ∀ f ∈ events, ∃ kf,
      compileKernel (rewriteSyscallEventFilter f).filterExpression = some kf) :
    ∀ acc : List KFilter × List KFilter,
      (List.foldl collectSyscallStep acc events).1 = acc.1 ∧
      ∀ k, k ∈ (List.foldl collectSyscallStep acc events).2 ↔
        (k ∈ acc.2 ∨ ∃ f ∈ events,
          compileKernel (rewriteSyscallEventFilter f).filterExpression = some k) := by
  induction events with
  | nil =>
    intro acc
    simp
  | cons f rest ih =>
    intro acc
    have hof := hall f (List.mem_cons_self f rest)
    obtain ⟨kf, hkf⟩ := hcomp f (List.mem_cons_self f rest)
    have hstep := collectSyscallStep_exit acc f hof
      (hcid f (List.mem_cons_self f rest)) kf hkf
    rw [List.foldl_cons, hstep]
    obtain ⟨ih1, ih2⟩ := ih
      (fun g hg => hall g (List.mem_cons_of_mem f hg))
      (fun g hg => hcid g (List.mem_cons_of_mem f hg))
      (fun g hg => hcomp g (List.mem_cons_of_mem f hg))
      (acc.1, dedupInsert acc.2 kf)
    refine ⟨ih1, fun k => ?_⟩
    rw [ih2 k]
    constructor
    · rintro (hk | hk)
      · rcases (mem_dedupInsert acc.2 kf k).mp hk with hk | hk
        · exact Or.inl hk
        · exact Or.inr ⟨f, List.mem_cons_self f rest, hk ▸ hkf⟩
      · obtain ⟨g, hg, hgk⟩ := hk
        exact Or.inr ⟨g, List.mem_cons_of_mem f hg, hgk⟩
    · rintro (hk | hk)
      · exact Or.inl ((mem_dedupInsert acc.2 kf k).mpr (Or.inl hk))
      · obtain ⟨g, hg, hgk⟩ := hk
        rcases List.mem_cons.mp hg with hgf | hgf
        · subst hgf
          rw [hkf] at hgk
          injection hgk with hgk
          exact Or.inl ((mem_dedupInsert acc.2 kf k).mpr (Or.inr hgk.symm))
        · exact Or.inr ⟨g, hgf, hgk⟩

/-- C5 as amended: for subscriber filters F1..Fn for one event sub-type
(file-open, syscall-enter, or syscall-exit) whose expressions compile —
and, for the syscall sub-types, constrain the syscall id — the kernel
filter registered for the merged physical probe is the " || "-joined
disjunction of the distinct parenthesized compiled filter strings and
accepts a sample iff at least one Fi accepts it.  A requester supplying
no filter expression makes the FILE-OPEN group filter unconditional,
but a SYSCALL requester with no filter expression is skipped by the
id-constraint check and contributes nothing to the registered group
filter.  (Fi is the requester's post-rewrite filter expression; the
compiled kernel filters and their evaluation are modelled from the spec
since the expression package is outside the sensor package.) -/
theorem claim5_subscription_merge_amended :
    (∀ events : List FileEventFilter,
      (∀ f ∈ events, f.eventType = FileEventType.fopen) → events ≠ [] →
      ((∀ f ∈ events, ∃ kf,
          compileKernel (rewriteFileEventFilter f).filterExpression = some kf) →
        ∃ ks, registerFileEvents events = some (KernelFilterSpec.disjunction ks) ∧
          KernelFilterSpec.filterString (KernelFilterSpec.disjunction ks) =
            String.intercalate " || " (ks.map (fun k => "(" ++ printKFilter k ++ ")")) ∧
          ∀ s : Sample,
            KernelFilterSpec.accepts s (KernelFilterSpec.disjunction ks) = true ↔
              ∃ f ∈ events,
                ApiExpression.test s (rewriteFileEventFilter f).filterExpression = true) ∧
      ((∃ f ∈ events,
          (rewriteFileEventFilter f).filterExpression = ApiExpression.null) →
        registerFileEvents events = some KernelFilterSpec.unconditional ∧
        ∀ s : Sample,
          KernelFilterSpec.accepts s KernelFilterSpec.unconditional = true)) ∧
    (∀ events : List SyscallEventFilter,
      (∀ f ∈ events, f.eventType = SyscallEventType.enter) → events ≠ [] →
      (∀ f ∈ events,
        containsIDFilter (rewriteSyscallEventFilter f).filterExpression = true) →
      (∀ f ∈ events, ∃ kf,
        compileKernel (rewriteSyscallEventFilter f).filterExpression = some kf) →
      ∃ ks, registerSyscallEnter events = some (KernelFilterSpec.disjunction ks) ∧
        KernelFilterSpec.filterString (KernelFilterSpec.disjunction ks) =
          String.intercalate " || " (ks.map (fun k => "(" ++ printKFilter k ++ ")")) ∧
        ∀ s : Sample,
          KernelFilterSpec.accepts s (KernelFilterSpec.disjunction ks) = true ↔
            ∃ f ∈ events,
              ApiExpression.test s (rewriteSyscallEventFilter f).filterExpression = true) ∧
    (∀ events : List SyscallEventFilter,
      (∀ f ∈ events, f.eventType = SyscallEventType.exit) → events ≠ [] →
      (∀ f ∈ events,
        containsIDFilter (rewriteSyscallEventFilter f).filterExpression = true) →
      (∀ f ∈ events, ∃ kf,
        compileKernel (rewriteSyscallEventFilter f).filterExpression = some kf) →
      ∃ ks, registerSyscallExit events = some (KernelFilterSpec.disjunction ks) ∧
        KernelFilterSpec.filterString (KernelFilterSpec.disjunction ks) =
          String.intercalate " || " (ks.map (fun k => "(" ++ printKFilter k ++ ")")) ∧
        ∀ s : Sample,
          KernelFilterSpec.accepts s (KernelFilterSpec.disjunction ks) = true ↔
            ∃ f ∈ events,
              ApiExpression.test s (rewriteSyscallEventFilter f).filterExpression = true) ∧
    (∀ (sef : SyscallEventFilter) (rest : List SyscallEventFilter),
      (rewriteSyscallEventFilter sef).filterExpression = ApiExpression.null →
      collectSyscallFilters (sef :: rest) = collectSyscallFilters rest) := by
  refine ⟨fun events hopen hne => registerFileEvents_merge events hopen hne,
    ?_, ?_, ?_⟩
  · intro events hall hne hcid hcomp
    obtain ⟨hexit, hmem⟩ := collectSyscall_foldl_enter_go events hall hcid hcomp ([], [])
    have hksne : (collectSyscallFilters events).1 ≠ [] := by
      obtain ⟨f, hf⟩ := List.exists_mem_of_ne_nil events hne
      obtain ⟨kf, hkf⟩ := hcomp f hf
      have : kf ∈ (collectSyscallFilters events).1 :=
        (hmem kf).mpr (Or.inr ⟨f, hf, hkf⟩)
      exact List.ne_nil_of_mem this
    refine ⟨(collectSyscallFilters events).1, ?_, rfl, ?_⟩
    · simp only [registerSyscallEnter]
      rw [if_neg hksne]
    · intro s
      simp only [KernelFilterSpec.accepts, List.any_eq_true]
      constructor
      · rintro ⟨k, hk, hacc⟩
        rcases (hmem k).mp hk with hk' | ⟨f, hf, hkf⟩
        · cases hk'
        · exact ⟨f, hf, by rw [← compileKernel_correct _ k hkf s]; exact hacc⟩
      · rintro ⟨f, hf, htest⟩
        obtain ⟨kf, hkf⟩ := hcomp f hf
        refine ⟨kf, (hmem kf).mpr (Or.inr ⟨f, hf, hkf⟩), ?_⟩
        rw [compileKernel_correct _ kf hkf s]
        exact htest
  · intro events hall hne hcid hcomp
    obtain ⟨henter, hmem⟩ := collectSyscall_foldl_exit_go events hall hcid hcomp ([], [])
    have hksne : (collectSyscallFilters events).2 ≠ [] := by
      obtain ⟨f, hf⟩ := List.exists_mem_of_ne_nil events hne
      obtain ⟨kf, hkf⟩ := hcomp f hf
      have : kf ∈ (collectSyscallFilters events).2 :=
        (hmem kf).mpr (Or.inr ⟨f, hf, hkf⟩)
      exact List.ne_nil_of_mem this
    refine ⟨(collectSyscallFilters events).2, ?_, rfl, ?_⟩
    · simp only [registerSyscallExit]
      rw [if_neg hksne]
    · intro s
      simp only [KernelFilterSpec.accepts, List.any_eq_true]
      constructor
      · rintro ⟨k, hk, hacc⟩
        rcases (hmem k).mp hk with hk' | ⟨f, hf, hkf⟩
        · cases hk'
        · exact ⟨f, hf, by rw [← compileKernel_correct _ k hkf s]; exact hacc⟩
      · rintro ⟨f, hf, htest⟩
        obtain ⟨kf, hkf⟩ := hcomp f hf
        refine ⟨kf, (hmem kf).mpr (Or.inr ⟨f, hf, hkf⟩), ?_⟩
        rw [compileKernel_correct _ kf hkf s]
        exact htest
  · intro sef rest h
    exact collectSyscall_skip sef rest (by rw [h]; rfl)

/-- Witness for C5 (amended) at concrete inputs: one compiled file-open
filter and one id-constraining syscall enter filter. -/
theorem claim5_subscription_merge_amended_witness :
    (∃ ks, registerFileEvents [fileEventFilterExample] =
        some (KernelFilterSpec.disjunction ks) ∧
      KernelFilterSpec.filterString (KernelFilterSpec.disjunction ks) =
        String.intercalate " || " (ks.map (fun k => "(" ++ printKFilter k ++ ")")) ∧
      ∀ s : Sample,
        KernelFilterSpec.accepts s (KernelFilterSpec.disjunction ks) = true ↔
          ∃ f ∈ [fileEventFilterExample],
            ApiExpression.test s (rewriteFileEventFilter f).filterExpression = true) ∧
    (∃ ks, registerSyscallEnter [syscallFilterIdExample] =
        some (KernelFilterSpec.disjunction ks) ∧
      KernelFilterSpec.filterString (KernelFilterSpec.disjunction ks) =
        String.intercalate " || " (ks.map (fun k => "(" ++ printKFilter k ++ ")")) ∧
      ∀ s : Sample,
        KernelFilterSpec.accepts s (KernelFilterSpec.disjunction ks) = true ↔
          ∃ f ∈ [syscallFilterIdExample],
            ApiExpression.test s (rewriteSyscallEventFilter f).filterExpression = true) := by
  constructor
  · exact (claim5_subscription_merge_amended.1 [fileEventFilterExample]
      (by
        intro f hf
        rw [List.mem_singleton] at hf
        subst hf
        rfl)
      (by simp)).1
      (by
        intro f hf
        rw [List.mem_singleton] at hf
        subst hf
        exact ⟨KFilter.leaf "filename" BinOp.eq (Value.vStr "/etc/passwd"), rfl⟩)
  · exact claim5_subscription_merge_amended.2.1 [syscallFilterIdExample]
      (by
        intro f hf
        rw [List.mem_singleton] at hf
        subst hf
        rfl)
      (by simp)
      (by
        intro f hf
        rw [List.mem_singleton] at hf
        subst hf
        rfl)
      (by
        intro f hf
        rw [List.mem_singleton] at hf
        subst hf
        exact ⟨KFilter.leaf "id" BinOp.eq (Value.vInt 59), rfl⟩)

/-- Counterexample to C5 as stated: for the syscall-enter sub-type, a
requester supplying no filter expression does NOT make the registered
group filter unconditional — it is skipped by the id-constraint check,
the group filter remains the disjunction of the other requesters'
compiled filters, and a concrete sample (id 60 against a filter for id
59) is rejected even though a no-expression requester is present. -/
theorem claim5_subscription_merge_counterexample :
    ({ eventType := SyscallEventType.enter } : SyscallEventFilter).filterExpression =
      ApiExpression.null ∧
    registerSyscallEnter
      [{ eventType := SyscallEventType.enter }, syscallFilterIdExample] =
      some (KernelFilterSpec.disjunction
        [KFilter.leaf "id" BinOp.eq (Value.vInt 59)]) ∧
    registerSyscallEnter
      [{ eventType := SyscallEventType.enter }, syscallFilterIdExample] ≠
      some KernelFilterSpec.unconditional ∧
    KernelFilterSpec.accepts
      (fun k => if k = "id" then some (Value.vInt 60) else none)
      (KernelFilterSpec.disjunction [KFilter.leaf "id" BinOp.eq (Value.vInt 59)]) =
      false := by
  refine ⟨rfl, by decide, by decide, rfl⟩

/-- C6: `containsIDFilter` holds for an EQ node exactly when its left
operand is the identifier `id`, for AND when at least one side holds,
for OR when both sides hold, and for no other node shape (nil
included); `registerSyscallEvents` skips entirely every filter whose
rewritten expression fails this check — it contributes nothing to the
ENTER or EXIT registration sets. -/
theorem claim6_contains_id_filter :
    containsIDFilter ApiExpression.null = false ∧
    (∀ n, containsIDFilter (ApiExpression.identifier n) = false) ∧
    (∀ v, containsIDFilter (ApiExpression.literal v) = false) ∧
    (∀ l r, containsIDFilter (ApiExpression.binary BinOp.eq l r) = true ↔
      l = ApiExpression.identifier "id") ∧
    (∀ l r, containsIDFilter (ApiExpression.binary BinOp.logicalAnd l r) =
      (containsIDFilter l || containsIDFilter r)) ∧
    (∀ l r, containsIDFilter (ApiExpression.binary BinOp.logicalOr l r) =
      (containsIDFilter l && containsIDFilter r)) ∧
    (∀ op l r, op ≠ BinOp.logicalAnd → op ≠ BinOp.logicalOr → op ≠ BinOp.eq →
      containsIDFilter (ApiExpression.binary op l r) = false) ∧
    (∀ sef rest,
      containsIDFilter (rewriteSyscallEventFilter sef).filterExpression = false →
      collectSyscallFilters (sef :: rest) = collectSyscallFilters rest) := by
  refine ⟨rfl, fun n => rfl, fun v => rfl, ?_, fun l r => rfl, fun l r => rfl, ?_, ?_⟩
  · intro l r
    cases l <;> simp [containsIDFilter]
  · intro op l r h1 h2 h3
    cases op <;> simp_all [containsIDFilter]
  · intro sef rest h
    exact collectSyscall_skip sef rest h

/-- Witness for C6 at a concrete input: a filter constraining only
`arg0` is skipped and leaves the registration sets of the remaining
filters unchanged. -/
theorem claim6_contains_id_filter_witness :
    collectSyscallFilters [syscallFilterNoIdExample, syscallFilterIdExample] =
      collectSyscallFilters [syscallFilterIdExample] ∧
    containsIDFilter (ApiExpression.binary BinOp.ne
      (ApiExpression.identifier "id")
      (ApiExpression.literal (Value.vInt 1))) = false :=
  ⟨claim6_contains_id_filter.2.2.2.2.2.2.2 syscallFilterNoIdExample
      [syscallFilterIdExample] (by decide),
   claim6_contains_id_filter.2.2.2.2.2.2.1 BinOp.ne
      (ApiExpression.identifier "id") (ApiExpression.literal (Value.vInt 1))
      (by decide) (by decide) (by decide)⟩

/-- C10: `rewriteFileEventFilter` clears all four deprecated fields,
ANDing the corresponding equality / LIKE / bitwise-AND test into the
filter expression for each field it folds in; when both `Filename` and
`FilenamePattern` are set, only the `Filename` equality is folded and
the pattern is discarded without ever being applied. -/
theorem claim10_rewrite_file_filter (f : FileEventFilter) :
    ((rewriteFileEventFilter f).filename = none ∧
     (rewriteFileEventFilter f).filenamePattern = none ∧
     (rewriteFileEventFilter f).openFlagsMask = none ∧
     (rewriteFileEventFilter f).createModeMask = none) ∧
    (rewriteFileEventFilter f).filterExpression =
      (let e1 :=
        match f.filename with
        | some v => exprLogicalAnd
            (exprEqual (ApiExpression.identifier "filename")
              (ApiExpression.literal (Value.vStr v))) f.filterExpression
        | none =>
          match f.filenamePattern with
          | some p => exprLogicalAnd
              (exprLike (ApiExpression.identifier "filename")
                (ApiExpression.literal (Value.vStr p))) f.filterExpression
          | none => f.filterExpression
      let e2 :=
        match f.openFlagsMask with
        | some m => exprLogicalAnd
            (exprBitwiseAnd (ApiExpression.identifier "flags")
              (ApiExpression.literal (Value.vInt m))) e1
        | none => e1
      match f.createModeMask with
      | some m => exprLogicalAnd
          (exprBitwiseAnd (ApiExpression.identifier "mode")
            (ApiExpression.literal (Value.vInt m))) e2
      | none => e2) ∧
    (∀ v, f.filename = some v →
      rewriteFileEventFilter f =
        rewriteFileEventFilter { f with filenamePattern := none }) := by
  refine ⟨?_, ?_, ?_⟩
  · cases hfn : f.filename <;> cases hfp : f.filenamePattern <;>
      cases hof : f.openFlagsMask <;> cases hcm : f.createModeMask <;>
      simp [rewriteFileEventFilter, hfn, hfp, hof, hcm]
  · cases hfn : f.filename <;> cases hfp : f.filenamePattern <;>
      cases hof : f.openFlagsMask <;> cases hcm : f.createModeMask <;>
      simp [rewriteFileEventFilter, hfn, hfp, hof, hcm]
  · intro v hv
    cases hof : f.openFlagsMask <;> cases hcm : f.createModeMask <;>
      simp [rewriteFileEventFilter, hv, hof, hcm]

/-- Witness for C10 at a concrete input with both `Filename` and
`FilenamePattern` set. -/
theorem claim10_rewrite_file_filter_witness :
    rewriteFileEventFilter
      { eventType := FileEventType.fopen, filename := some "/etc/hosts",
        filenamePattern := some "/etc/h*" } =
      rewriteFileEventFilter
        { ({ eventType := FileEventType.fopen, filename := some "/etc/hosts",
             filenamePattern := some "/etc/h*" } : FileEventFilter) with
          filenamePattern := none } ∧
    (rewriteFileEventFilter
      { eventType := FileEventType.fopen, filename := some "/etc/hosts",
        filenamePattern := some "/etc/h*" }).filenamePattern = none :=
  ⟨(claim10_rewrite_file_filter
      { eventType := FileEventType.fopen, filename := some "/etc/hosts",
        filenamePattern := some "/etc/h*" }).2.2 "/etc/hosts" rfl,
   (claim10_rewrite_file_filter
      { eventType := FileEventType.fopen, filename := some "/etc/hosts",
        filenamePattern := some "/etc/h*" }).1.2.1⟩

theorem dummyLegacyTrace_no_unreg (major : Nat) (hm : major < 3)
    (groups : List Int) :
    ∀ st : DummyState, MonAction.unregEvent ∉ (dummyLegacyTrace major groups st).2 := by
  induction groups with
  | nil =>
    intro st
    simp [dummyLegacyTrace]
  | cons g gs ih =>
    intro st
    have hstep : dummyRegisterStep major g st = (st, [MonAction.regTracepoint g]) := by
      simp [dummyRegisterStep, hm]
    simp only [dummyLegacyTrace, hstep]
    intro hmem
    rcases List.mem_append.mp hmem with h | h
    · simp at h
    · exact ih st h

/-- C7: with kernel major version at least 3, the dummy
raw_syscalls/sys_enter tracepoint is registered (process-wide, group 0)
only on the counter transition 0 → 1, the unregister callback is
installed, and it unregisters the dummy event exactly when the counter
returns to 0; with major version below 3, the dummy tracepoint is
registered on every call in the caller's event group, no unregister
callback is installed, and no sequence of registrations ever
unregisters it. -/
theorem claim7_dummy_tracepoint_refcount (major : Nat) (groupID : Int)
    (st : DummyState) :
    (3 ≤ major →
      ((dummyRegisterStep major groupID st).2 = [MonAction.regTracepoint 0] ↔
        st.count = 0) ∧
      ((dummyRegisterStep major groupID st).2 = [] ↔ ¬ st.count = 0) ∧
      (dummyRegisterStep major groupID st).1.count = st.count + 1 ∧
      unregisterCallbackInstalled major = true ∧
      ((dummyUnregisterStep st).2 = [MonAction.unregEvent] ↔ st.count - 1 = 0) ∧
      (dummyUnregisterStep st).1.count = st.count - 1) ∧
    (major < 3 →
      dummyRegisterStep major groupID st = (st, [MonAction.regTracepoint groupID]) ∧
      unregisterCallbackInstalled major = false ∧
      ∀ groups : List Int, ∀ st0 : DummyState,
        MonAction.unregEvent ∉ (dummyLegacyTrace major groups st0).2) := by
  constructor
  · intro h3
    have hnl : ¬ major < 3 := not_lt.mpr h3
    refine ⟨?_, ?_, ?_, ?_, ?_, ?_⟩
    · rw [dummyRegisterStep, if_neg hnl]
      by_cases hc : st.count + 1 = 1
      · rw [if_pos hc]
        simp
        omega
      · rw [if_neg hc]
        simp
        omega
    · rw [dummyRegisterStep, if_neg hnl]
      by_cases hc : st.count + 1 = 1
      · rw [if_pos hc]
        simp
        omega
      · rw [if_neg hc]
        simp
        omega
    · rw [dummyRegisterStep, if_neg hnl]
      by_cases hc : st.count + 1 = 1
      · rw [if_pos hc]
      · rw [if_neg hc]
    · simp [unregisterCallbackInstalled, h3]
    · rw [dummyUnregisterStep]
      by_cases hc : st.count - 1 = 0
      · rw [if_pos hc]
        simp
        omega
      · rw [if_neg hc]
        simp
        omega
    · rw [dummyUnregisterStep]
      by_cases hc : st.count - 1 = 0
      · rw [if_pos hc]
      · rw [if_neg hc]
  · intro hm
    refine ⟨by simp [dummyRegisterStep, hm], ?_, ?_⟩
    · simp [unregisterCallbackInstalled]
      omega
    · intro groups st0
      exact dummyLegacyTrace_no_unreg major hm groups st0

/-- Witness for C7 at concrete inputs: a first registration on a 4.x
kernel registers the dummy in group 0; the callback tears it down from
count 1; a 2.6 kernel registers per group. -/
theorem claim7_dummy_tracepoint_refcount_witness :
    (dummyRegisterStep 4 7 { count := 0, active := false }).2 =
      [MonAction.regTracepoint 0] ∧
    (dummyUnregisterStep { count := 1, active := true }).2 =
      [MonAction.unregEvent] ∧
    dummyRegisterStep 2 7 { count := 0, active := false } =
      ({ count := 0, active := false }, [MonAction.regTracepoint 7]) := by
  refine ⟨?_, ?_, ?_⟩
  · exact ((claim7_dummy_tracepoint_refcount 4 7
      { count := 0, active := false }).1 (by decide)).1.mpr rfl
  · exact ((claim7_dummy_tracepoint_refcount 4 7
      { count := 1, active := true }).1 (by decide)).2.2.2.2.1.mpr (by decide)
  · exact ((claim7_dummy_tracepoint_refcount 2 7
      { count := 0, active := false }).2 (by decide)).1

theorem addContainerID_contains (c : ContainerFilterState) (cid : String)
    (h : cid ≠ "") : (addContainerID c cid).containerIds.contains cid = true := by
  have hlen : 0 < cid.length := by
    obtain ⟨l⟩ := cid
    cases l with
    | nil => exact absurd rfl h
    | cons a as => simp [String.length]
  simp only [addContainerID]
  rw [if_pos hlen]
  by_cases hc : c.containerIds.contains cid
  · rw [if_pos hc]
    exact hc
  · rw [if_neg hc]
    simp

/-- C8 as amended: for a container-lifecycle event with a NONEMPTY
container id not yet in the allow-set whose name, image id or image
name matches the configured sets/globs, the filter accepts the event
and promotes the container id into the fast-path allow-set, so every
subsequent call on an event bearing the same container id returns true
through the fast path alone (any payload, no state change, no glob
evaluation).  The unamended claim fails for the empty container id,
which `addContainerID` refuses to promote. -/
theorem claim8_promotion_amended (c : ContainerFilterState) (e : TEvent)
    (cev : ContainerEventPayload)
    (hpay : e.payload = TelemetryPayload.container cev)
    (hid : e.containerId ≠ "")
    (hnotfast : c.containerIds.contains e.containerId = false)
    (hmatch : c.containerNames.contains cev.name = true ∨
      c.imageIds.contains cev.imageID = true ∨
      (cev.imageName ≠ "" ∧ ∃ g ∈ c.imageGlobs, g cev.imageName = true)) :
    (containerFilterFunc c e).1 = true ∧
    (containerFilterFunc c e).2.containerIds.contains e.containerId = true ∧
    ∀ e' : TEvent, e'.containerId = e.containerId →
      containerFilterFunc (containerFilterFunc c e).2 e' =
        (true, (containerFilterFunc c e).2) := by
  obtain ⟨cid, pay⟩ := e
  have hp : pay = TelemetryPayload.container cev := hpay
  subst hp
  have hid' : cid ≠ "" := hid
  have hnf : (c.containerIds.contains cid) = false := hnotfast
  have hstep : containerFilterFunc c ⟨cid, TelemetryPayload.container cev⟩ =
      (true, addContainerID c cid) := by
    simp only [containerFilterFunc]
    rw [if_neg (by rw [hnf]; exact fun hc => Bool.noConfusion hc)]
    by_cases h1 : c.containerNames.contains cev.name = true
    · rw [if_pos h1]
    · rw [if_neg h1]
      by_cases h2 : c.imageIds.contains cev.imageID = true
      · rw [if_pos h2]
      · rw [if_neg h2]
        have h3 : (cev.imageName ≠ "" &&
            c.imageGlobs.any (fun g => g cev.imageName)) = true := by
          rcases hmatch with hm | hm | hm
          · exact absurd hm h1
          · exact absurd hm h2
          · obtain ⟨hmn, g, hg, hgm⟩ := hm
            rw [Bool.and_eq_true]
            exact ⟨decide_eq_true hmn, List.any_eq_true.mpr ⟨g, hg, hgm⟩⟩
        rw [if_pos h3]
  rw [hstep]
  have hcin : (addContainerID c cid).containerIds.contains cid = true :=
    addContainerID_contains c cid hid'
  refine ⟨rfl, hcin, ?_⟩
  intro e' he'
  simp only [containerFilterFunc]
  rw [he', if_pos hcin]

/-- Witness for C8 (amended) at a concrete input: a name match promotes
the id "c8" and a later event with id "c8" and an unrelated payload is
accepted via the fast path. -/
theorem claim8_promotion_amended_witness :
    (containerFilterFunc
      { containerIds := [], containerNames := ["web"], imageIds := [],
        imageGlobs := [] }
      { containerId := "c8",
        payload := TelemetryPayload.container
          { name := "web", imageID := "", imageName := "" } }).1 = true ∧
    containerFilterFunc
      (containerFilterFunc
        { containerIds := [], containerNames := ["web"], imageIds := [],
          imageGlobs := [] }
        { containerId := "c8",
          payload := TelemetryPayload.container
            { name := "web", imageID := "", imageName := "" } }).2
      { containerId := "c8", payload := TelemetryPayload.other } =
      (true, (containerFilterFunc
        { containerIds := [], containerNames := ["web"], imageIds := [],
          imageGlobs := [] }
        { containerId := "c8",
          payload := TelemetryPayload.container
            { name := "web", imageID := "", imageName := "" } }).2) := by
  have h := claim8_promotion_amended
    { containerIds := [], containerNames := ["web"], imageIds := [],
      imageGlobs := [] }
    { containerId := "c8",
      payload := TelemetryPayload.container
        { name := "web", imageID := "", imageName := "" } }
    { name := "web", imageID := "", imageName := "" }
    rfl (by decide) (by decide) (Or.inl (by decide))
  exact ⟨h.1, h.2.2 { containerId := "c8", payload := TelemetryPayload.other } rfl⟩

/-- Counterexample to C8 as stated: an event with the EMPTY container id
whose name matches the configured name set is accepted, but its id is
not promoted, and a subsequent event bearing the same (empty) container
id with an unrelated payload is rejected — not accepted via the fast
path. -/
theorem claim8_promotion_counterexample :
    (containerFilterFunc
      { containerIds := [], containerNames := ["web"], imageIds := [],
        imageGlobs := [] }
      { containerId := "",
        payload := TelemetryPayload.container
          { name := "web", imageID := "", imageName := "" } }).1 = true ∧
    (containerFilterFunc
      (containerFilterFunc
        { containerIds := [], containerNames := ["web"], imageIds := [],
          imageGlobs := [] }
        { containerId := "",
          payload := TelemetryPayload.container
            { name := "web", imageID := "", imageName := "" } }).2
      { containerId := "",
        payload := TelemetryPayload.container
          { name := "other", imageID := "", imageName := "" } }).1 = false := by
  constructor
  · rfl
  · rfl

/-- C9: on a sample missing an expected field or carrying one with the
wrong dynamic type, every affected decoder performs an unchecked Go
type assertion and panics (modelled as `none`) instead of returning a
per-sample decode error: the process crashes, contradicting the spec's
requirement that such a failure be fatal only to that single event. -/
theorem claim9_decoders_panic_on_schema_mismatch :
    decodeSyscallTraceEnter (fun _ => none) = none ∧
    decodeSysExit (fun _ => none) = none ∧
    decodeDoSysOpen (fun _ => none) = none ∧
    newContainerEvent (fun _ => none) CEvent.created = none ∧
    decodeSyscallTraceEnter
      (fun k => if k = "id" then some (RawValue.u32 1) else none) = none := by
  refine ⟨rfl, rfl, rfl, rfl, ?_⟩
  rfl

end Capsule8
